import Mathlib

/-!
Verification of the scoring/indicator engine of `the-frontier`.

The JavaScript sources are embedded shallowly:

* numbers become `ℚ`; where a JavaScript computation can produce `NaN` or
  `±Infinity` (an unguarded division) the value is modelled by `JSNum`,
  which carries the IEEE special values explicitly and compares the way
  JavaScript numbers compare (`NaN` comparisons are false);
* objects become structures; a field that some producers omit becomes an
  `Option` field (JavaScript reads `undefined`, which is falsy);
* `x || d` on a present number field is `jsOr x d` (`0` is falsy);
* the signal/severity strings of the source become inductive enums, and the
  human-readable factor strings pushed by the scoring engines become
  constructors of `FactorV1` / `FactorV3`, one per distinct push site;
* `Array.prototype.sort` (stable in modern engines) becomes
  `List.insertionSort`, which is stable;
* the integer score accumulators start at 50 and are only ever changed by
  integer constants, so scores are modelled as `ℤ`.
-/

namespace Frontier

/-- `x || d` for a present JavaScript number `x`: `0` is falsy. -/
def jsOr (x d : ℚ) : ℚ := if x = 0 then d else x

/-- `Math.round`: round half toward positive infinity. -/
def jsRound (q : ℚ) : ℤ := ⌊q + 1 / 2⌋

/-- A JavaScript number: a finite rational or one of the IEEE special values. -/
inductive JSNum where
  | finite (q : ℚ)
  | posInf
  | negInf
  | nan
deriving DecidableEq

/-- Division `a / b` of two finite JavaScript numbers: division by zero gives
`±Infinity` by the sign of the numerator, and `NaN` for `0 / 0`. -/
def jsDiv (a b : ℚ) : JSNum :=
  if b = 0 then (if 0 < a then .posInf else if a < 0 then .negInf else .nan)
  else .finite (a / b)

namespace JSNum

/-- Whether the value is an ordinary finite number (not `NaN`, not `±Infinity`). -/
def isFinite : JSNum → Bool
  | finite _ => true
  | _ => false

/-- JavaScript `x < c` for a finite right operand: false on `NaN`. -/
def ltv : JSNum → ℚ → Bool
  | finite q, c => decide (q < c)
  | negInf, _ => true
  | _, _ => false

/-- JavaScript `x > c` for a finite right operand: false on `NaN`. -/
def gtv : JSNum → ℚ → Bool
  | finite q, c => decide (c < q)
  | posInf, _ => true
  | _, _ => false

/-- JavaScript `x <= c` for a finite right operand: false on `NaN`. -/
def lev : JSNum → ℚ → Bool
  | finite q, c => decide (q ≤ c)
  | negInf, _ => true
  | _, _ => false

/-- JavaScript `x >= c` for a finite right operand: false on `NaN`. -/
def gev : JSNum → ℚ → Bool
  | finite q, c => decide (c ≤ q)
  | posInf, _ => true
  | _, _ => false

/-- Multiplication by a positive finite constant (used with `* 100`). -/
def scale (x : JSNum) (c : ℚ) : JSNum :=
  match x with
  | finite q => finite (q * c)
  | posInf => posInf
  | negInf => negInf
  | nan => nan

/-- Subtraction of a finite constant, `x - c`. -/
def subQ (x : JSNum) (c : ℚ) : JSNum :=
  match x with
  | finite q => finite (q - c)
  | posInf => posInf
  | negInf => negInf
  | nan => nan

/-- Subtraction `a - x` with a finite left operand. -/
def rsub (a : ℚ) (x : JSNum) : JSNum :=
  match x with
  | finite q => finite (a - q)
  | posInf => negInf
  | negInf => posInf
  | nan => nan

/-- JavaScript division of two possibly special numbers. -/
def divN : JSNum → JSNum → JSNum
  | nan, _ => nan
  | _, nan => nan
  | finite a, finite b => jsDiv a b
  | finite _, posInf => finite 0
  | finite _, negInf => finite 0
  | posInf, finite b => if b < 0 then negInf else posInf
  | negInf, finite b => if b < 0 then posInf else negInf
  | posInf, posInf => nan
  | posInf, negInf => nan
  | negInf, posInf => nan
  | negInf, negInf => nan

/-- `parseFloat(x.toFixed(2))`: round a finite value to two decimals
(`toFixed` rounds ties toward the larger value); special values survive. -/
def fix2 : JSNum → JSNum
  | finite q => finite ((jsRound (q * 100) : ℚ) / 100)
  | x => x

/-- `Math.round` lifted to JavaScript numbers. -/
def roundN : JSNum → JSNum
  | finite q => finite (jsRound q : ℚ)
  | x => x

end JSNum

/-! ## Data model

`PriceData` is the upstream price row as the scoring pipeline reads it
(the raw object also carries symbol and date strings, which no claim uses). -/

structure PriceData where
  open_ : ℚ
  high : ℚ
  low : ℚ
  close : ℚ
  change_pct : ℚ
  volume : ℚ
deriving DecidableEq

/-- One row of the derived broker summary (server.js `brokerSummary` entries):
volumes in lots, values in IDR. -/
structure BrokerRow where
  code : String
  buyVolume : ℚ
  buyValue : ℚ
  sellVolume : ℚ
  sellValue : ℚ
  netVolume : ℚ
  netValue : ℚ
  isForeign : Bool
deriving DecidableEq

/-- server.js `foreignFlow` object (broker-code lists omitted: they feed only
narrative strings). -/
structure ForeignFlow where
  buy : ℚ
  sell : ℚ
  net : ℚ
  buyValue : ℚ
  sellValue : ℚ
  netValue : ℚ
deriving DecidableEq

inductive SpikeSignal where
  | STEALTH_ACCUMULATION
  | BREAKOUT
  | NORMAL
deriving DecidableEq

inductive SpikeSeverity where
  | NONE
  | MODERATE
  | HIGH
  | EXTREME
deriving DecidableEq

structure VolumeSpike where
  detected : Bool
  ratio : ℚ
  severity : SpikeSeverity
  signal : SpikeSignal
deriving DecidableEq

inductive VduSignal where
  | VDU_BREAKOUT
  | VDU_ACCUMULATING
  | NORMAL
deriving DecidableEq

structure VolumeDryUp where
  detected : Bool
  signal : VduSignal
  dryUpDays : ℕ
  confidence : ℚ
deriving DecidableEq

inductive BaiSignal where
  | NEUTRAL
  | STEALTH_ACCUMULATION
  | HIDDEN_SUPPORT
  | DISTRIBUTION
deriving DecidableEq

inductive BaiSeverity where
  | NONE
  | MODERATE
  | HIGH
deriving DecidableEq

/-- server.js `bidAskImbalance` record. -/
structure BidAskImbalance where
  detected : Bool
  ratio : JSNum
  signal : BaiSignal
  severity : BaiSeverity
  buyPressure : JSNum
deriving DecidableEq

inductive StreakSignal where
  | NEUTRAL
  | STRONG_BULLISH
  | BULLISH
  | MODERATE_BULLISH
  | STRONG_BEARISH
  | BEARISH
deriving DecidableEq

/-- server.js `foreignStreak` record: `consecutiveDays` is negative for a
selling streak, exactly as the source stores it. -/
structure ForeignStreakInfo where
  detected : Bool
  consecutiveDays : ℤ
  totalNetValue : ℤ
  signal : StreakSignal
deriving DecidableEq

inductive ConcSignal where
  | NEUTRAL
  | HIGH_CONCENTRATION
  | COORDINATED_BUYING
  | MODERATE_CONCENTRATION
deriving DecidableEq

structure DominantBroker where
  code : String
  daysActive : ℕ
  totalNetValue : ℤ
deriving DecidableEq

structure BrokerConcentrationInfo where
  detected : Bool
  dominantBrokers : List DominantBroker
  concentrationDays : ℕ
  signal : ConcSignal
deriving DecidableEq

inductive PaCompressionSignal where
  | NORMAL
  | COMPRESSION
deriving DecidableEq

structure PaCompression where
  detected : Bool
  signal : PaCompressionSignal
  rangePct : JSNum
deriving DecidableEq

inductive PaFakeSignal where
  | NORMAL
  | BEAR_TRAP
deriving DecidableEq

structure PaFakeBreakdown where
  detected : Bool
  signal : PaFakeSignal
deriving DecidableEq

inductive PaLowerSignal where
  | NORMAL
  | HEALTHY_PULLBACK
deriving DecidableEq

structure PaLowerHigh where
  detected : Bool
  signal : PaLowerSignal
deriving DecidableEq

inductive PaFloorSignal where
  | NORMAL
  | FLOOR_DEFENSE
deriving DecidableEq

structure PaFloorDefense where
  detected : Bool
  signal : PaFloorSignal
  defenseLevel : ℚ
deriving DecidableEq

inductive PaGapSignal where
  | NORMAL
  | GAP_UP_BREAKOUT
deriving DecidableEq

structure PaGapUp where
  detected : Bool
  signal : PaGapSignal
  gapPct : JSNum
deriving DecidableEq

/-- server.js `generatePriceActionIndicators` result. -/
structure PriceActionInfo where
  changePct : ℚ
  dailyRange : ℚ
  rangePct : JSNum
  priceCompression : PaCompression
  fakeBreakdown : PaFakeBreakdown
  lowerHighPattern : PaLowerHigh
  floorDefense : PaFloorDefense
  gapUpBreakout : PaGapUp
deriving DecidableEq

/-- server.js `volumeAnalysis` object; the dry-up and bid-ask fields are
absent from the basic (degraded) bundle, hence `Option`. -/
structure VolumeAnalysis where
  totalVolume : ℚ
  averageVolume : ℚ
  volumeVsAvg : ℚ
  volumeSpike : Option VolumeSpike
  volumeDryUp : Option VolumeDryUp
  bidAskImbalance : Option BidAskImbalance
deriving DecidableEq

structure Totals where
  buyVolume : ℚ
  buyValue : ℚ
  sellVolume : ℚ
  sellValue : ℚ
  netVolume : ℚ
  netValue : ℚ
deriving DecidableEq

structure LargeLotInfo where
  count : ℕ
  volume : ℚ
  value : ℚ
deriving DecidableEq

structure SidData where
  count : ℤ
  change : ℤ
  changePct : JSNum
deriving DecidableEq

structure NegoInfo where
  volume : ℚ
  value : ℚ
  count : ℕ
deriving DecidableEq

/-- The indicator bundle produced by server.js (`generateBandarIndicators` /
`generateBasicIndicators`); fields the degraded bundle omits are `Option`. -/
structure Indicators where
  foreignFlow : ForeignFlow
  brokerSummary : List BrokerRow
  volumeAnalysis : VolumeAnalysis
  foreignStreak : Option ForeignStreakInfo
  brokerConcentration : Option BrokerConcentrationInfo
  priceAction : Option PriceActionInfo
  totals : Totals
  largeLotTransactions : LargeLotInfo
  sidData : SidData
  queueManipulation : ℚ
  runningTrades : ℕ
  transaksiNego : NegoInfo
deriving DecidableEq

/-! ## server.js indicator derivation -/

/-- server.js:462 — `totalAskVolume > 0 ? totalBidVolume / totalAskVolume : 1`. -/
def bidAskRatioOf (totalBidVolume totalAskVolume : ℚ) : JSNum :=
  if 0 < totalAskVolume then jsDiv totalBidVolume totalAskVolume else .finite 1

/-- server.js:465-487 — the bid-ask volume imbalance detector (indicator #3),
a pure function of the day's buy and sell totals and the price change.
The record starts as the NEUTRAL default; the outer branches set `detected`
and `ratio` before the inner ones choose the signal, so an outer hit whose
inner conditions all fail keeps signal `NEUTRAL` with `detected = true`. -/
def detectBidAskImbalance (totalBuyVolume totalSellVolume priceChange : ℚ) :
    BidAskImbalance :=
  let r := bidAskRatioOf totalBuyVolume totalSellVolume
  let hit : BidAskImbalance :=
    { detected := true
      ratio := r.fix2
      signal := .NEUTRAL
      severity := .NONE
      buyPressure := ((r.subQ 1).scale 100).roundN }
  if r.gtv 1.15 ∧ priceChange ≤ 2 then
    if priceChange < -0.5 ∧ r.gtv 1.3 then
      { hit with signal := .STEALTH_ACCUMULATION, severity := .HIGH }
    else if |priceChange| ≤ 2 then
      { hit with signal := .HIDDEN_SUPPORT
                 severity := if r.gtv 1.5 then .HIGH else .MODERATE }
    else hit
  else if r.ltv 0.85 ∧ -2 ≤ priceChange then
    { hit with signal := .DISTRIBUTION, severity := .HIGH }
  else
    { detected := false, ratio := .finite 1, signal := .NEUTRAL
      severity := .NONE, buyPressure := .finite 0 }

/-- The `for … break` walk of server.js:535-543: count the leading run of
strictly positive daily net values and sum it. -/
def buyStreakWalk : List ℚ → ℕ × ℚ
  | [] => (0, 0)
  | v :: rest =>
      if 0 < v then
        let p := buyStreakWalk rest
        (p.1 + 1, v + p.2)
      else (0, 0)

/-- The symmetric walk of server.js:558-566 for the selling side. -/
def sellStreakWalk : List ℚ → ℕ × ℚ
  | [] => (0, 0)
  | v :: rest =>
      if v < 0 then
        let p := sellStreakWalk rest
        (p.1 + 1, v + p.2)
      else (0, 0)

/-- server.js:529-577 — indicator #4, the foreign-flow streak detector.
`history` is the per-day foreign net value, most recent first (the SQL
orders by date descending); the detector only runs on at least 5 rows. -/
def detectForeignStreak (history : List ℚ) : ForeignStreakInfo :=
  let neutral : ForeignStreakInfo :=
    { detected := false, consecutiveDays := 0, totalNetValue := 0
      signal := .NEUTRAL }
  if 5 ≤ history.length then
    let buys := buyStreakWalk history
    if 2 ≤ buys.1 then
      { detected := true
        consecutiveDays := (buys.1 : ℤ)
        totalNetValue := jsRound buys.2
        signal := if 5 ≤ buys.1 then .STRONG_BULLISH
                  else if 3 ≤ buys.1 then .BULLISH else .MODERATE_BULLISH }
    else if buys.1 = 0 then
      let sells := sellStreakWalk history
      if 2 ≤ sells.1 then
        { detected := true
          consecutiveDays := -(sells.1 : ℤ)
          totalNetValue := jsRound sells.2
          signal := if 5 ≤ sells.1 then .STRONG_BEARISH else .BEARISH }
      else neutral
    else neutral
  else neutral

/-- server.js:1238-1242 `calculateForeignConcentration`:
`Math.round((foreignFlow.buyValue / totals.buyValue) * 100 * 10) / 10`,
with the `totals.buyValue === 0` guard returning 0. -/
def calculateForeignConcentration (ind : Indicators) : JSNum :=
  if ind.totals.buyValue = 0 then .finite 0
  else ((((jsDiv ind.foreignFlow.buyValue ind.totals.buyValue).scale 100).scale
    10).roundN).scale (1 / 10)

/-- server.js:819-928 `generatePriceActionIndicators` (indicators #6-#10):
a pure function of one day's OHLCV row and the average volume the caller
passes in its `volumeAnalysis` argument (the only field it reads). -/
def generatePriceActionIndicators (priceData : PriceData)
    (vaAverageVolume : ℚ) : PriceActionInfo :=
  let currentPrice := priceData.close
  let openPrice := jsOr priceData.open_ currentPrice
  let highPrice := jsOr priceData.high currentPrice
  let lowPrice := jsOr priceData.low currentPrice
  let priceChange := priceData.change_pct
  let volume := priceData.volume
  let avgVolume := jsOr vaAverageVolume volume
  -- #6 price compression
  let dailyRange := highPrice - lowPrice
  let rangePct := (jsDiv dailyRange currentPrice).scale 100
  let compressionHit := rangePct.lev 2 ∧ |priceChange| ≤ 1
  -- #7 fake breakdown / bear trap
  let breachedSupport := lowPrice < openPrice * 0.97
  let recoveredStrong := lowPrice * 1.02 < currentPrice ∧ -1 < priceChange
  let volumeConfirmation := avgVolume * 1.3 < volume
  let bearTrap := breachedSupport ∧ recoveredStrong ∧ volumeConfirmation
  -- #8 lower high on low volume
  let isPullback := priceChange < 0 ∧ -3 < priceChange
  let lowVolume := volume < avgVolume * 0.7
  let pullbackHit := isPullback ∧ lowVolume
  -- #9 floor defense
  let bounceFromLow := (jsDiv (currentPrice - lowPrice) lowPrice).scale 100
  let heldLevel := bounceFromLow.gtv 1.5 ∧ openPrice * 0.98 < lowPrice
  let floorHit := heldLevel ∧ volumeConfirmation
  -- #10 gap up breakout
  let prevClose := jsDiv currentPrice (1 + priceChange / 100)
  let gapPct := ((JSNum.rsub openPrice prevClose).divN prevClose).scale 100
  let strongGap := gapPct.gtv 1
  let sustained := openPrice < currentPrice ∧ 2 < priceChange
  let gapHit := strongGap ∧ sustained ∧ volumeConfirmation
  { changePct := priceChange
    dailyRange := dailyRange
    rangePct := rangePct
    priceCompression :=
      if compressionHit then
        { detected := true, signal := .COMPRESSION, rangePct := rangePct.fix2 }
      else { detected := false, signal := .NORMAL, rangePct := rangePct.fix2 }
    fakeBreakdown :=
      if bearTrap then { detected := true, signal := .BEAR_TRAP }
      else { detected := false, signal := .NORMAL }
    lowerHighPattern :=
      if pullbackHit then { detected := true, signal := .HEALTHY_PULLBACK }
      else { detected := false, signal := .NORMAL }
    floorDefense :=
      if floorHit then
        { detected := true, signal := .FLOOR_DEFENSE, defenseLevel := lowPrice }
      else { detected := false, signal := .NORMAL, defenseLevel := 0 }
    gapUpBreakout :=
      if gapHit then
        { detected := true, signal := .GAP_UP_BREAKOUT, gapPct := gapPct.fix2 }
      else { detected := false, signal := .NORMAL, gapPct := .finite 0 } }

/-- server.js:931-984 `generateBasicIndicators`: the degraded bundle used
when no broker-transaction rows exist or derivation failed (all counts zero,
neutral signals; `priceAction` is still computed from the price row, with
the day's own volume standing in for the average). -/
def generateBasicIndicators (priceData : PriceData) : Indicators :=
  let volume := priceData.volume
  { foreignFlow :=
      { buy := 0, sell := 0, net := 0, buyValue := 0, sellValue := 0
        netValue := 0 }
    brokerSummary := []
    volumeAnalysis :=
      { totalVolume := volume
        averageVolume := volume
        volumeVsAvg := 0
        volumeSpike :=
          some { detected := false, ratio := 1, severity := .NONE
                 signal := .NORMAL }
        volumeDryUp := none
        bidAskImbalance := none }
    foreignStreak := none
    brokerConcentration := none
    priceAction := some (generatePriceActionIndicators priceData volume)
    totals :=
      { buyVolume := 0, buyValue := 0, sellVolume := 0, sellValue := 0
        netVolume := 0, netValue := 0 }
    largeLotTransactions := { count := 0, volume := 0, value := 0 }
    sidData := { count := 0, change := 0, changePct := .finite 0 }
    queueManipulation := 50
    runningTrades := 0
    transaksiNego := { volume := 0, value := 0, count := 0 } }

/-- One parsed broker-transaction row (server.js:323-327 applies `parseInt`,
defaulting to 0). -/
structure TxRow where
  code : String
  buy_volume : ℚ
  buy_value : ℚ
  sell_volume : ℚ
  sell_value : ℚ
deriving DecidableEq

/-- server.js:263-716 `generateBandarIndicators`, as observed at its
boundary. With no transaction rows it returns the basic bundle
(server.js:273-276). On the non-empty path all detectors run, but the
`result` object literal at server.js:688 reads `volumeAnalysis`, an
identifier that is declared nowhere in that function or module (line 678 is
a property key, not a binding), so constructing the literal raises a
ReferenceError which the `catch` at server.js:711-715 converts to
`generateBasicIndicators` as well. The function therefore evaluates to the
basic bundle on every path; its per-detector computations are embedded
separately above as the pure functions the claims are about. -/
def generateBandarIndicators (transactions : List TxRow)
    (priceData : PriceData) : Indicators :=
  if transactions.isEmpty then generateBasicIndicators priceData
  else generateBasicIndicators priceData

/-! ## scoring.js — the "clean" exported `calculateBandarScore` variant -/

/-- The human-readable factor strings scoring.js pushes, one constructor per
push site, in source order. -/
inductive FactorV1 where
  | foreignBuying1B
  | foreignSelling1B
  | topBrokersAccumulating
  | topBrokersDistributing
  | belowBrokerCost
  | volumeSpikePriceUp
  | stealthVolumeSpike
  | volumeBreakout
  | vduBreakout
  | vduAccumulating
  | stealthBidAsk
  | hiddenSupport
  | distributionDetected
  | strongForeignStreak
  | foreignBuyingStreak
  | foreignAccumulation
  | strongForeignSellStreak
  | foreignSellingStreak
  | bandarConcentration
  | coordinatedBuying
  | brokerAccumulationDetected
  | priceCompressionFactor
  | bearTrapFactor
  | healthyPullback
  | floorDefenseFactor
  | gapUpBreakoutFactor
deriving DecidableEq

inductive SignalV1 where
  | BUY
  | HOLD
  | REDUCE
deriving DecidableEq

/-- scoring.js:11-23 — total buy value over brokers with positive buy volume. -/
def totalBuyValueV1 (brokerSummary : List BrokerRow) : ℚ :=
  (brokerSummary.filter fun b => 0 < b.buyVolume).foldl
    (fun s b => s + b.buyValue) 0

/-- scoring.js:11-23 — total buy lots over brokers with positive buy volume. -/
def totalBuyLotsV1 (brokerSummary : List BrokerRow) : ℚ :=
  (brokerSummary.filter fun b => 0 < b.buyVolume).foldl
    (fun s b => s + b.buyVolume) 0

/-- scoring.js:26 — weighted average broker cost, falling back to the current
close when no broker bought (buy volume is in lots of 100 shares). -/
def avgBrokerCostV1 (stockData : PriceData) (brokerSummary : List BrokerRow) :
    ℚ :=
  if 0 < totalBuyLotsV1 brokerSummary then
    totalBuyValueV1 brokerSummary / (totalBuyLotsV1 brokerSummary * 100)
  else stockData.close

/-- scoring.js:29 — `((currentPrice - avgBrokerCost) / avgBrokerCost) * 100`,
which JavaScript evaluates to `NaN` or `±Infinity` when the average broker
cost is zero. -/
def premiumToCostV1 (stockData : PriceData) (brokerSummary : List BrokerRow) :
    JSNum :=
  (jsDiv (stockData.close - avgBrokerCostV1 stockData brokerSummary)
    (avgBrokerCostV1 stockData brokerSummary)).scale 100

/-- scoring.js:35-37 — brokers sorted by `|netValue|` descending (JavaScript
`sort` is stable; `insertionSort` with this total preorder is too), top 3,
summed net value. -/
def top3NetValueV1 (brokerSummary : List BrokerRow) : ℚ :=
  ((brokerSummary.insertionSort fun a b => |b.netValue| ≤ |a.netValue|).take
    3).foldl (fun s b => s + b.netValue) 0

/-- scoring.js:75 — `totalVolume / (averageVolume || 1)`. -/
def volumeRatioV1 (va : VolumeAnalysis) : JSNum :=
  jsDiv va.totalVolume (jsOr va.averageVolume 1)

/-- scoring.js:86-92 — foreign-flow rule (netValue in billions vs ±1). -/
def v1ForeignRule (netValue : ℚ) : ℤ × List FactorV1 :=
  let b := netValue / 1000000000
  if 1 < b then (15, [.foreignBuying1B])
  else if b < -1 then (-15, [.foreignSelling1B])
  else (0, [])

/-- scoring.js:95-101 — top-broker alignment rule (±50B IDR). -/
def v1TopBrokerRule (top3NetValue : ℚ) : ℤ × List FactorV1 :=
  if 50000000000 < top3NetValue then (10, [.topBrokersAccumulating])
  else if top3NetValue < -50000000000 then (-10, [.topBrokersDistributing])
  else (0, [])

/-- scoring.js:104-107 — cost-basis rule (`premiumToCost < -5`; false on
`NaN` and `+Infinity` exactly as in JavaScript). -/
def v1CostRule (premium : JSNum) : ℤ × List FactorV1 :=
  if premium.ltv (-5) then (5, [.belowBrokerCost]) else (0, [])

/-- scoring.js:110-113 — volume confirmation rule. -/
def v1VolumeConfirmRule (volumeRat : JSNum) (priceChange : ℚ) :
    ℤ × List FactorV1 :=
  if volumeRat.gtv 2 ∧ 0 < priceChange then (5, [.volumeSpikePriceUp])
  else (0, [])

/-- scoring.js:116-125 — volume-spike rule. -/
def v1SpikeRule (vs : Option VolumeSpike) : ℤ × List FactorV1 :=
  match vs with
  | some v =>
      if v.detected then
        if v.signal = .STEALTH_ACCUMULATION then (12, [.stealthVolumeSpike])
        else if v.signal = .BREAKOUT then (8, [.volumeBreakout])
        else (0, [])
      else (0, [])
  | none => (0, [])

/-- scoring.js:128-137 — volume dry-up rule. -/
def v1VduRule (vdu : Option VolumeDryUp) : ℤ × List FactorV1 :=
  match vdu with
  | some v =>
      if v.detected then
        if v.signal = .VDU_BREAKOUT then (15, [.vduBreakout])
        else if v.signal = .VDU_ACCUMULATING then (8, [.vduAccumulating])
        else (0, [])
      else (0, [])
  | none => (0, [])

/-- scoring.js:140-152 — bid-ask imbalance rule. -/
def v1BaiRule (bai : Option BidAskImbalance) : ℤ × List FactorV1 :=
  match bai with
  | some b =>
      if b.detected then
        if b.signal = .STEALTH_ACCUMULATION then (12, [.stealthBidAsk])
        else if b.signal = .HIDDEN_SUPPORT then (8, [.hiddenSupport])
        else if b.signal = .DISTRIBUTION then (-12, [.distributionDetected])
        else (0, [])
      else (0, [])
  | none => (0, [])

/-- scoring.js:155-173 — foreign-streak rule. -/
def v1StreakRule (fs : Option ForeignStreakInfo) : ℤ × List FactorV1 :=
  match fs with
  | some f =>
      if f.detected then
        if f.signal = .STRONG_BULLISH then (18, [.strongForeignStreak])
        else if f.signal = .BULLISH then (12, [.foreignBuyingStreak])
        else if f.signal = .MODERATE_BULLISH then (6, [.foreignAccumulation])
        else if f.signal = .STRONG_BEARISH then
          (-18, [.strongForeignSellStreak])
        else if f.signal = .BEARISH then (-12, [.foreignSellingStreak])
        else (0, [])
      else (0, [])
  | none => (0, [])

/-- scoring.js:176-188 — broker-concentration rule. -/
def v1ConcRule (bc : Option BrokerConcentrationInfo) : ℤ × List FactorV1 :=
  match bc with
  | some c =>
      if c.detected then
        if c.signal = .HIGH_CONCENTRATION then (15, [.bandarConcentration])
        else if c.signal = .COORDINATED_BUYING then (12, [.coordinatedBuying])
        else if c.signal = .MODERATE_CONCENTRATION then
          (6, [.brokerAccumulationDetected])
        else (0, [])
      else (0, [])
  | none => (0, [])

/-- scoring.js:191-222 — the five price-action rules (#6-#10), skipped
entirely when the bundle has no `priceAction`. -/
def v1PaRule (pa : Option PriceActionInfo) : ℤ × List FactorV1 :=
  match pa with
  | some p =>
      let r1 : ℤ × List FactorV1 :=
        if p.priceCompression.detected then (5, [.priceCompressionFactor])
        else (0, [])
      let r2 : ℤ × List FactorV1 :=
        if p.fakeBreakdown.detected ∧ p.fakeBreakdown.signal = .BEAR_TRAP then
          (12, [.bearTrapFactor])
        else (0, [])
      let r3 : ℤ × List FactorV1 :=
        if p.lowerHighPattern.detected ∧
            p.lowerHighPattern.signal = .HEALTHY_PULLBACK then
          (8, [.healthyPullback])
        else (0, [])
      let r4 : ℤ × List FactorV1 :=
        if p.floorDefense.detected then (10, [.floorDefenseFactor]) else (0, [])
      let r5 : ℤ × List FactorV1 :=
        if p.gapUpBreakout.detected then (15, [.gapUpBreakoutFactor])
        else (0, [])
      (r1.1 + r2.1 + r3.1 + r4.1 + r5.1, r1.2 ++ r2.2 ++ r3.2 ++ r4.2 ++ r5.2)
  | none => (0, [])

/-- scoring.js:8 — `priceAction.changePct || 0` with the `= {}` default. -/
def priceChangeV1 (ind : Indicators) : ℚ :=
  match ind.priceAction with
  | some pa => pa.changePct
  | none => 0

/-- The score accumulator of scoring.js:82-222 before clamping: 50 plus the
rule deltas, in source order (all deltas are integer constants). -/
def rawScoreV1 (stockData : PriceData) (ind : Indicators) : ℤ :=
  50 + (v1ForeignRule ind.foreignFlow.netValue).1
    + (v1TopBrokerRule (top3NetValueV1 ind.brokerSummary)).1
    + (v1CostRule (premiumToCostV1 stockData ind.brokerSummary)).1
    + (v1VolumeConfirmRule (volumeRatioV1 ind.volumeAnalysis)
        (priceChangeV1 ind)).1
    + (v1SpikeRule ind.volumeAnalysis.volumeSpike).1
    + (v1VduRule ind.volumeAnalysis.volumeDryUp).1
    + (v1BaiRule ind.volumeAnalysis.bidAskImbalance).1
    + (v1StreakRule ind.foreignStreak).1
    + (v1ConcRule ind.brokerConcentration).1
    + (v1PaRule ind.priceAction).1

/-- The factor strings scoring.js pushes, in the order the rules run. -/
def factorsV1 (stockData : PriceData) (ind : Indicators) : List FactorV1 :=
  (v1ForeignRule ind.foreignFlow.netValue).2
    ++ (v1TopBrokerRule (top3NetValueV1 ind.brokerSummary)).2
    ++ (v1CostRule (premiumToCostV1 stockData ind.brokerSummary)).2
    ++ (v1VolumeConfirmRule (volumeRatioV1 ind.volumeAnalysis)
        (priceChangeV1 ind)).2
    ++ (v1SpikeRule ind.volumeAnalysis.volumeSpike).2
    ++ (v1VduRule ind.volumeAnalysis.volumeDryUp).2
    ++ (v1BaiRule ind.volumeAnalysis.bidAskImbalance).2
    ++ (v1StreakRule ind.foreignStreak).2
    ++ (v1ConcRule ind.brokerConcentration).2
    ++ (v1PaRule ind.priceAction).2

/-- scoring.js:224 — `Math.max(20, Math.min(80, score))`. -/
def clampV1 (s : ℤ) : ℤ := max 20 (min 80 s)

/-- scoring.js:226-229 — the score-to-signal bands of this variant. -/
def signalFromScoreV1 (s : ℤ) : SignalV1 :=
  if 65 ≤ s then .BUY else if 50 ≤ s then .HOLD else .REDUCE

structure ScoreResultV1 where
  score : ℤ
  signal : SignalV1
  avgBrokerCost : ℤ
  premiumToCost : JSNum
  factors : List FactorV1
deriving DecidableEq

/-- scoring.js:4-239 `calculateBandarScore`: clamp to 20..80, classify, and
return the result record (`Math.round` of an integer score is itself;
`Math.floor` of the average cost is `⌊·⌋`; the `analysis` string list is
presentation only and not modelled). -/
def calculateBandarScoreV1 (stockData : PriceData) (ind : Indicators) :
    ScoreResultV1 :=
  let clamped := clampV1 (rawScoreV1 stockData ind)
  { score := clamped
    signal := signalFromScoreV1 clamped
    avgBrokerCost := ⌊avgBrokerCostV1 stockData ind.brokerSummary⌋
    premiumToCost := premiumToCostV1 stockData ind.brokerSummary
    factors := factorsV1 stockData ind }

/-! ## scoring-v3.js — the priority-weighted variant -/

/-- One historical OHLCV bar as scoring-v3.js reads it (`d.high || d.close`
etc. are modelled with `jsOr`). -/
structure Bar where
  high : ℚ
  low : ℚ
  close : ℚ
  volume : ℚ
deriving DecidableEq

/-- One broker row of `stockData.brokerData`; `avgPrice` models the
`b.avgPrice || b.price || 0` chain as the price value finally read. -/
structure BrokerV3 where
  code : String
  buyVolume : ℚ
  sellVolume : ℚ
  avgPrice : ℚ
deriving DecidableEq

structure StreakRec where
  buyDays : ℤ
  sellDays : ℤ
deriving DecidableEq

structure ForeignData where
  netValue : ℚ
  streak : Option StreakRec
deriving DecidableEq

structure Ownership where
  totalShares : ℚ
  controllingStake : ℚ
deriving DecidableEq

structure StockDataV3 where
  price : ℚ
  volume : ℚ
  changePct : Option ℚ
  historical : List Bar
  brokerData : List BrokerV3
  foreignData : ForeignData
  ownership : Option Ownership
deriving DecidableEq

structure MarketContext where
  ihsgChange : Option ℚ
deriving DecidableEq

/-- scoring-v3.js:13-15 broker code lists. -/
def BIG_DOG_BROKERS : List String :=
  ["YU", "CC", "NI", "GW", "SQ", "OD", "BK", "AK"]

def INSTITUTIONAL_BROKERS : List String :=
  ["YU", "CC", "NI", "GW", "SQ", "OD", "BK", "AK", "MS", "JP", "GS"]

def RETAIL_BROKERS : List String := ["DX", "ZZ", "QQ", "MG", "PD", "HP"]

/-- `l.slice(-n)`: the last `n` elements (the whole list when shorter). -/
def sliceLast (n : ℕ) (l : List Bar) : List Bar := l.drop (l.length - n)

/-- Maximum of a list of rationals; callers guard nonemptiness
(JavaScript `Math.max()` of an empty spread is `-Infinity`). -/
def listMaxQ : List ℚ → ℚ
  | [] => 0
  | h :: t => t.foldl max h

/-- Minimum of a list of rationals; callers guard nonemptiness. -/
def listMinQ : List ℚ → ℚ
  | [] => 0
  | h :: t => t.foldl min h

/-- scoring-v3.js:421-425 `calculateAverageVolume`. -/
def calculateAverageVolume (historical : List Bar) (days : ℕ) : ℚ :=
  if historical.length < days then 0
  else ((sliceLast days historical).foldl (fun s d => s + d.volume) 0) /
    (days : ℚ)

/-- scoring-v3.js:427-434 `calculatePriceRange`. -/
def calculatePriceRange (historical : List Bar) : ℚ :=
  if historical.isEmpty then 0
  else
    let mx := listMaxQ (historical.map fun d => jsOr d.high d.close)
    let mn := listMinQ (historical.map fun d => jsOr d.low d.close)
    let avg := (mx + mn) / 2
    if 0 < avg then (mx - mn) / avg else 0

/-- scoring-v3.js:436-439 `calculateResistanceLevel`. -/
def calculateResistanceLevel (historical : List Bar) : ℚ :=
  if historical.length < 20 then 0
  else listMaxQ ((sliceLast 20 historical).map fun d => d.high)

/-- The loop body of scoring-v3.js:441-448 `calculateOBV`, walking
consecutive close-to-close changes. -/
def obvWalk : Bar → List Bar → ℚ
  | _, [] => 0
  | p, d :: rest =>
      (if 0 < d.close - p.close then d.volume
       else if d.close - p.close < 0 then -d.volume else 0) + obvWalk d rest

def calculateOBV : List Bar → ℚ
  | [] => 0
  | d :: rest => obvWalk d rest

inductive ObvTrend where
  | leading
  | neutral
deriving DecidableEq

/-- `historical.slice(-20, -10)` for a list of length ≥ 10. -/
def obvPrevSlice (l : List Bar) : List Bar :=
  (l.drop (l.length - 20)).take ((l.length - 10) - (l.length - 20))

/-- scoring-v3.js:450-455 `analyzeOBVTrend`. -/
def analyzeOBVTrend (obv : ℚ) (historical : List Bar) : ObvTrend :=
  if historical.length < 10 then .neutral
  else
    let priceHigh :=
      listMaxQ ((sliceLast 10 historical).map fun d => jsOr d.high d.close)
    let prevPriceHigh :=
      listMaxQ ((obvPrevSlice historical).map fun d => jsOr d.high d.close)
    if 0 < obv ∧ priceHigh ≤ prevPriceHigh then .leading else .neutral

/-- scoring-v3.js:457-470 `calculateCMF`. -/
def calculateCMF (historical : List Bar) (period : ℕ) : ℚ :=
  if historical.length < period then 0
  else
    let s :=
      (sliceLast period historical).foldl
        (fun (acc : ℚ × ℚ) d =>
          let high := jsOr d.high d.close
          let low := jsOr d.low d.close
          let close := d.close
          if low < high then
            (acc.1 + (((close - low) - (high - close)) / (high - low)) *
              d.volume, acc.2 + d.volume)
          else acc)
        (0, 0)
    if 0 < s.2 then s.1 / s.2 else 0

/-- scoring-v3.js:472-480 `calculateVWAP`. -/
def calculateVWAP (historical : List Bar) : ℚ :=
  let s :=
    historical.foldl
      (fun (acc : ℚ × ℚ) d =>
        let tp := (jsOr d.high d.close + jsOr d.low d.close + d.close) / 3
        (acc.1 + tp * d.volume, acc.2 + d.volume))
      (0, 0)
  if 0 < s.2 then s.1 / s.2 else 0

/-- scoring-v3.js:408-419 `calculateBrokerVWAP`. -/
def calculateBrokerVWAP (brokerData : List BrokerV3) : ℚ :=
  let s :=
    brokerData.foldl
      (fun (acc : ℚ × ℚ) b =>
        let volume := b.buyVolume + b.sellVolume
        if 0 < b.avgPrice then
          (acc.1 + volume * b.avgPrice, acc.2 + volume)
        else acc)
      (0, 0)
  if 0 < s.2 then s.1 / s.2 else 0

/-- scoring-v3.js:398-406 `estimateFloat`. -/
def estimateFloat (ownership : Option Ownership) : ℚ :=
  match ownership with
  | none => 1000000000
  | some ow =>
      if 0 < ow.totalShares ∧ 0 < ow.controllingStake then
        ow.totalShares * (1 - ow.controllingStake / 100)
      else ow.totalShares * 0.3

/-- scoring-v3.js:386-396 `calculateMetrics` (its constant `obvTrend` and
`cmfValue` fields feed only the setup assessor, which no claim touches). -/
structure Metrics where
  currentPrice : ℚ
  avgVolume20 : ℚ
  floatSize : ℚ
  resistanceLevel : ℚ
deriving DecidableEq

def calculateMetrics (stockData : StockDataV3) : Metrics :=
  { currentPrice := stockData.price
    avgVolume20 := calculateAverageVolume stockData.historical 20
    floatSize := estimateFloat stockData.ownership
    resistanceLevel := calculateResistanceLevel stockData.historical }

/-- The factor strings scoring-v3.js pushes, one constructor per push site. -/
inductive FactorV3 where
  | noBrokerData
  | highConcentration
  | moderateConcentration
  | concentratedSelling
  | bigDogAccumulation
  | bigDogPresence
  | bigDogDistribution
  | contraFlowFactor
  | strongAccumulation
  | moderateAccumulation
  | sweetSpotFactor
  | extendedWarning
  | volumeSpike3x
  | elevatedVolume
  | priceCompressionV3
  | breakoutOnVolume
  | foreignBuyStreakF
  | foreignSellStreakF
  | strongForeignInflow
  | moderateForeignInflow
  | foreignOutflow
  | noQuantData
  | obvDivergenceF
  | cmfPositiveF
  | cmfNegativeF
  | vwapReclaimF
  | outperformingIHSG
deriving DecidableEq

/-- The score delta each push site applies alongside its factor string
(scoring-v3.js WEIGHTS plus the inline constants; informational pushes
carry 0). -/
def factorDeltaV3 : FactorV3 → ℤ
  | .noBrokerData => 0
  | .highConcentration => 25
  | .moderateConcentration => 18
  | .concentratedSelling => -15
  | .bigDogAccumulation => 15
  | .bigDogPresence => 5
  | .bigDogDistribution => -15
  | .contraFlowFactor => 10
  | .strongAccumulation => 12
  | .moderateAccumulation => 6
  | .sweetSpotFactor => 0
  | .extendedWarning => -10
  | .volumeSpike3x => 15
  | .elevatedVolume => 10
  | .priceCompressionV3 => 12
  | .breakoutOnVolume => 10
  | .foreignBuyStreakF => 5
  | .foreignSellStreakF => -5
  | .strongForeignInflow => 12
  | .moderateForeignInflow => 8
  | .foreignOutflow => -20
  | .noQuantData => 0
  | .obvDivergenceF => 8
  | .cmfPositiveF => 6
  | .cmfNegativeF => -5
  | .vwapReclaimF => 5
  | .outperformingIHSG => 6

/-- The conviction-factor tags scoring-v3.js pushes. -/
inductive ConvFactor where
  | high_concentration
  | concentrated_selling
  | big_dog_accumulating
  | big_dog_distributing
  | contra_flow
  | high_float_pct
  | sweet_spot
  | extended
deriving DecidableEq

/-- scoring-v3.js:174-186 — the concentration branch chain. -/
def v3ConcGroup (top3Concentration top3NetVolume : ℚ) :
    ℤ × List FactorV3 × List ConvFactor :=
  if 0.5 < top3Concentration ∧ 0 < top3NetVolume then
    (25, [.highConcentration], [.high_concentration])
  else if 0.35 < top3Concentration ∧ 0 < top3NetVolume then
    (18, [.moderateConcentration], [])
  else if 0.5 < top3Concentration ∧ top3NetVolume ≤ 0 then
    (-15, [.concentratedSelling], [.concentrated_selling])
  else (0, [], [])

/-- scoring-v3.js:188-199 — the Big Dog branch chain. -/
def v3BigDogGroup (bigDogNet : ℚ) (bigDogCount : ℕ) (totalBuy : ℚ) :
    ℤ × List FactorV3 × List ConvFactor :=
  if 0 < bigDogNet ∧ 2 ≤ bigDogCount then
    (15, [.bigDogAccumulation], [.big_dog_accumulating])
  else if 0 < bigDogNet then (5, [.bigDogPresence], [])
  else if bigDogNet < 0 ∧ totalBuy * 0.1 < |bigDogNet| then
    (-15, [.bigDogDistribution], [.big_dog_distributing])
  else (0, [], [])

/-- scoring-v3.js:201-205 — the contra-flow branch
(`contraFlow = institutionalBuy > 0 && retailSell > institutionalBuy * 0.5`). -/
def v3ContraGroup (institutionalBuy retailSell netVolume : ℚ) :
    ℤ × List FactorV3 × List ConvFactor :=
  if (0 < institutionalBuy ∧ institutionalBuy * 0.5 < retailSell) ∧
      0 < netVolume then
    (10, [.contraFlowFactor], [.contra_flow])
  else (0, [], [])

/-- scoring-v3.js:207-214 — the float-accumulation branch chain. -/
def v3AccumGroup (accumulationPct : ℚ) :
    ℤ × List FactorV3 × List ConvFactor :=
  if 0.1 < accumulationPct then
    (12, [.strongAccumulation], [.high_float_pct])
  else if 0.05 < accumulationPct then (6, [.moderateAccumulation], [])
  else (0, [], [])

/-- scoring-v3.js:216-223 — the sweet-spot / extended branch chain. -/
def v3SweetGroup (priceVsAvg : ℚ) : ℤ × List FactorV3 × List ConvFactor :=
  if 0 < priceVsAvg ∧ priceVsAvg < 20 then
    (0, [.sweetSpotFactor], [.sweet_spot])
  else if 30 < priceVsAvg then (-10, [.extendedWarning], [.extended])
  else (0, [], [])

structure TopBrokerV3 where
  code : String
  netVolume : ℚ
  pctOfBuy : ℚ
deriving DecidableEq

structure BrokerAnalysis where
  scoreContribution : ℤ
  factors : List FactorV3
  convictionFactors : List ConvFactor
  accumulationPctOfFloat : ℚ
  estimatedAvgPrice : ℚ
  priceVsAvg : ℚ
  top3Concentration : ℚ
  bigDogNet : ℚ
  topBrokers : List TopBrokerV3
deriving DecidableEq

/-- scoring-v3.js:121-240 `analyzeBrokerAccumulation`. -/
def analyzeBrokerAccumulation (brokerData : List BrokerV3)
    (ownership : Option Ownership) (metrics : Metrics) : BrokerAnalysis :=
  if brokerData.isEmpty then
    { scoreContribution := 0
      factors := [.noBrokerData]
      convictionFactors := []
      accumulationPctOfFloat := 0
      estimatedAvgPrice := 0
      priceVsAvg := 0
      top3Concentration := 0
      bigDogNet := 0
      topBrokers := [] }
  else
    let totalBuy := brokerData.foldl (fun s b => s + b.buyVolume) 0
    let totalSell := brokerData.foldl (fun s b => s + b.sellVolume) 0
    let netVolume := totalBuy - totalSell
    let sortedByBuy :=
      brokerData.insertionSort fun a b => b.buyVolume ≤ a.buyVolume
    let top3Buyers := sortedByBuy.take 3
    let top3BuyVolume := top3Buyers.foldl (fun s b => s + b.buyVolume) 0
    let top3Concentration :=
      if 0 < totalBuy then top3BuyVolume / totalBuy else 0
    let top3NetVolume :=
      top3Buyers.foldl (fun s b => s + (b.buyVolume - b.sellVolume)) 0
    let bigDogActivity :=
      brokerData.filter fun b => BIG_DOG_BROKERS.contains b.code
    let bigDogNet :=
      bigDogActivity.foldl (fun s b => s + (b.buyVolume - b.sellVolume)) 0
    let institutionalBuy :=
      (brokerData.filter fun b => INSTITUTIONAL_BROKERS.contains b.code).foldl
        (fun s b => s + b.buyVolume) 0
    let retailSell :=
      (brokerData.filter fun b => RETAIL_BROKERS.contains b.code).foldl
        (fun s b => s + b.sellVolume) 0
    let floatSize := jsOr metrics.floatSize (estimateFloat ownership)
    let accumulationPct := if 0 < floatSize then |netVolume| / floatSize else 0
    let estimatedAvgPrice := calculateBrokerVWAP brokerData
    let currentPrice := jsOr metrics.currentPrice 0
    let priceVsAvg :=
      if 0 < estimatedAvgPrice then
        ((currentPrice - estimatedAvgPrice) / estimatedAvgPrice) * 100
      else 0
    let g1 := v3ConcGroup top3Concentration top3NetVolume
    let g2 := v3BigDogGroup bigDogNet bigDogActivity.length totalBuy
    let g3 := v3ContraGroup institutionalBuy retailSell netVolume
    let g4 := v3AccumGroup accumulationPct
    let g5 := v3SweetGroup priceVsAvg
    { scoreContribution := g1.1 + g2.1 + g3.1 + g4.1 + g5.1
      factors := g1.2.1 ++ g2.2.1 ++ g3.2.1 ++ g4.2.1 ++ g5.2.1
      convictionFactors := g1.2.2 ++ g2.2.2 ++ g3.2.2 ++ g4.2.2 ++ g5.2.2
      accumulationPctOfFloat := accumulationPct * 100
      estimatedAvgPrice := estimatedAvgPrice
      priceVsAvg := priceVsAvg
      top3Concentration := top3Concentration * 100
      bigDogNet := bigDogNet
      topBrokers :=
        top3Buyers.map fun b =>
          { code := b.code
            netVolume := b.buyVolume - b.sellVolume
            pctOfBuy :=
              if 0 < totalBuy then b.buyVolume / totalBuy * 100 else 0 } }

/-- scoring-v3.js:249-255 — the volume-spike branch chain. -/
def v3VolGroup (volumeSpikeRatioQ : ℚ) : ℤ × List FactorV3 :=
  if 3 < volumeSpikeRatioQ then (15, [.volumeSpike3x])
  else if 2 < volumeSpikeRatioQ then (10, [.elevatedVolume])
  else (0, [])

/-- scoring-v3.js:257-263 — the price-compression branch. -/
def v3CompressionGroup (historical : List Bar) : ℤ × List FactorV3 :=
  if 10 ≤ historical.length ∧
      calculatePriceRange (sliceLast 10 historical) < 0.03 then
    (12, [.priceCompressionV3])
  else (0, [])

/-- scoring-v3.js:265-269 — the breakout branch (`resistanceLevel &&` is the
truthiness test on a number, i.e. nonzero). -/
def v3BreakoutGroup (resistanceLevel price volumeSpikeRatioQ : ℚ) :
    ℤ × List FactorV3 :=
  if resistanceLevel ≠ 0 ∧ resistanceLevel * 1.02 < price ∧
      2 < volumeSpikeRatioQ then
    (10, [.breakoutOnVolume])
  else (0, [])

structure VPAnalysis where
  scoreContribution : ℤ
  factors : List FactorV3
  volumeSpikeRatioQ : ℚ
deriving DecidableEq

/-- scoring-v3.js:242-272 `analyzeVolumePrice`. -/
def analyzeVolumePrice (price volume : ℚ) (historical : List Bar)
    (metrics : Metrics) : VPAnalysis :=
  let avgVolume20 :=
    jsOr metrics.avgVolume20 (calculateAverageVolume historical 20)
  let r := if 0 < avgVolume20 then volume / avgVolume20 else 1
  let g1 := v3VolGroup r
  let g2 := v3CompressionGroup historical
  let g3 := v3BreakoutGroup metrics.resistanceLevel price r
  { scoreContribution := g1.1 + g2.1 + g3.1
    factors := g1.2 ++ g2.2 ++ g3.2
    volumeSpikeRatioQ := r }

/-- scoring-v3.js:282-290 — the streak branch chain; the third component is
the signed `streak` value the function reports. -/
def v3StreakGroup (streakData : StreakRec) : ℤ × List FactorV3 × ℤ :=
  if 5 ≤ streakData.buyDays then
    (5, [.foreignBuyStreakF], streakData.buyDays)
  else if 5 ≤ streakData.sellDays then
    (-5, [.foreignSellStreakF], -streakData.sellDays)
  else (0, [], 0)

/-- scoring-v3.js:292-301 — the net-value branch chain. -/
def v3NetGroup (netValue : ℚ) : ℤ × List FactorV3 :=
  if 1000000000 < netValue then (12, [.strongForeignInflow])
  else if 500000000 < netValue then (8, [.moderateForeignInflow])
  else if netValue < -1000000000 then (-20, [.foreignOutflow])
  else (0, [])

structure FFAnalysis where
  scoreContribution : ℤ
  factors : List FactorV3
  streak : ℤ
deriving DecidableEq

/-- scoring-v3.js:274-304 `analyzeForeignFlow` (`foreignData.streak ||
{buyDays: 0, sellDays: 0}`). -/
def analyzeForeignFlow (foreignData : ForeignData) : FFAnalysis :=
  let streakData := foreignData.streak.getD { buyDays := 0, sellDays := 0 }
  let g1 := v3StreakGroup streakData
  let g2 := v3NetGroup foreignData.netValue
  { scoreContribution := g1.1 + g2.1
    factors := g1.2.1 ++ g2.2
    streak := g1.2.2 }

/-- scoring-v3.js:317-320 — the OBV-divergence branch. -/
def v3ObvGroup (obvTrend : ObvTrend) : ℤ × List FactorV3 :=
  if obvTrend = .leading then (8, [.obvDivergenceF]) else (0, [])

/-- scoring-v3.js:322-329 — the CMF branch chain. -/
def v3CmfGroup (cmf : ℚ) : ℤ × List FactorV3 :=
  if 0.1 < cmf then (6, [.cmfPositiveF])
  else if cmf < -0.1 then (-5, [.cmfNegativeF])
  else (0, [])

/-- scoring-v3.js:331-337 — the VWAP-reclaim branch. -/
def v3VwapGroup (priceVsVWAP : ℚ) : ℤ × List FactorV3 :=
  if 0 < priceVsVWAP ∧ priceVsVWAP < 5 then (5, [.vwapReclaimF]) else (0, [])

structure QAnalysis where
  scoreContribution : ℤ
  factors : List FactorV3
  obvTrend : ObvTrend
  cmfValue : ℚ
deriving DecidableEq

/-- scoring-v3.js:306-339 `analyzeQuantitativeIndicators` (its `volume`
parameter is unused in the source as well). -/
def analyzeQuantitativeIndicators (historical : List Bar)
    (price volume : ℚ) : QAnalysis :=
  if historical.length < 20 then
    { scoreContribution := 0, factors := [.noQuantData]
      obvTrend := .neutral, cmfValue := 0 }
  else
    let obv := calculateOBV historical
    let obvTrend := analyzeOBVTrend obv historical
    let cmf := calculateCMF historical 20
    let vwap := calculateVWAP historical
    let priceVsVWAP := if 0 < vwap then ((price - vwap) / vwap) * 100 else 0
    let g1 := v3ObvGroup obvTrend
    let g2 := v3CmfGroup cmf
    let g3 := v3VwapGroup priceVsVWAP
    { scoreContribution := g1.1 + g2.1 + g3.1
      factors := g1.2 ++ g2.2 ++ g3.2
      obvTrend := obvTrend
      cmfValue := cmf }

structure RSAnalysis where
  scoreContribution : ℤ
  factors : List FactorV3
deriving DecidableEq

/-- scoring-v3.js:342-354 `analyzeRelativeStrength` (both fields must be
present — `!== undefined` — before the comparison runs). -/
def analyzeRelativeStrength (stockData : StockDataV3) (mc : MarketContext) :
    RSAnalysis :=
  match mc.ihsgChange, stockData.changePct with
  | some ihsg, some cp =>
      if ihsg < -0.5 ∧ 0 < cp then
        { scoreContribution := 6, factors := [.outperformingIHSG] }
      else { scoreContribution := 0, factors := [] }
  | _, _ => { scoreContribution := 0, factors := [] }

inductive SignalV3 where
  | STRONG_BUY
  | BUY
  | HOLD
  | REDUCE
  | SELL
deriving DecidableEq

/-- scoring-v3.js:482-491 `determineSignal`: bands on the clamped score, then
three conviction bumps capped at 5. -/
def determineSignal (score : ℤ) (convictionFactors : List ConvFactor) :
    SignalV3 × ℤ :=
  let signal : SignalV3 :=
    if 75 ≤ score then .STRONG_BUY
    else if 60 ≤ score then .BUY
    else if 45 ≤ score then .HOLD
    else if 30 ≤ score then .REDUCE
    else .SELL
  let c0 : ℤ :=
    if 75 ≤ score then 5
    else if 60 ≤ score then 4
    else if 45 ≤ score then 3
    else if 30 ≤ score then 2
    else 1
  let c1 := if convictionFactors.contains .high_concentration then
    min 5 (c0 + 1) else c0
  let c2 := if convictionFactors.contains .sweet_spot then
    min 5 (c1 + 1) else c1
  let c3 := if convictionFactors.contains .big_dog_accumulating then
    min 5 (c2 + 1) else c2
  (signal, c3)

/-- scoring-v3.js:94 — `Math.max(0, Math.min(100, score))`. -/
def clampV3 (s : ℤ) : ℤ := max 0 (min 100 s)

/-- The score accumulator of scoring-v3.js:62-92 before clamping. -/
def rawScoreV3 (stockData : StockDataV3) (mc : MarketContext) : ℤ :=
  let metrics := calculateMetrics stockData
  50 + (analyzeBrokerAccumulation stockData.brokerData stockData.ownership
      metrics).scoreContribution
    + (analyzeVolumePrice stockData.price stockData.volume
        stockData.historical metrics).scoreContribution
    + (analyzeForeignFlow stockData.foreignData).scoreContribution
    + (analyzeQuantitativeIndicators stockData.historical stockData.price
        stockData.volume).scoreContribution
    + (analyzeRelativeStrength stockData mc).scoreContribution

structure ScoreResultV3 where
  score : ℤ
  signal : SignalV3
  conviction : ℤ
  factors : List FactorV3
  convictionFactors : List ConvFactor
deriving DecidableEq

/-- scoring-v3.js:51-119 `calculateBandarScore`: run the five priority
analyses, clamp to 0..100, classify (the `idealSetup`, `metrics` and
`reasoning` fields of the returned object are presentation/secondary layers
no claim touches). -/
def calculateBandarScoreV3 (stockData : StockDataV3) (mc : MarketContext) :
    ScoreResultV3 :=
  let metrics := calculateMetrics stockData
  let brA := analyzeBrokerAccumulation stockData.brokerData
    stockData.ownership metrics
  let vp := analyzeVolumePrice stockData.price stockData.volume
    stockData.historical metrics
  let ff := analyzeForeignFlow stockData.foreignData
  let q := analyzeQuantitativeIndicators stockData.historical stockData.price
    stockData.volume
  let rs := analyzeRelativeStrength stockData mc
  let clamped := clampV3 (rawScoreV3 stockData mc)
  let sig := determineSignal clamped brA.convictionFactors
  { score := clamped
    signal := sig.1
    conviction := sig.2
    factors := brA.factors ++ vp.factors ++ ff.factors ++ q.factors ++
      rs.factors
    convictionFactors := brA.convictionFactors }

/-! ## Red-flag detector (comprehensive-analysis `analyzeRedFlags`) -/

inductive FlagType where
  | DISTRIBUTION
  | BROADER_SELLING
  | FOREIGN_EXODUS
  | WEAK_RALLY
  | PUMP_AND_DUMP
deriving DecidableEq

inductive FlagSeverity where
  | MEDIUM
  | HIGH
  | CRITICAL
deriving DecidableEq

structure RedFlag where
  type : FlagType
  severity : FlagSeverity
deriving DecidableEq

inductive RiskLevel where
  | LOW
  | MEDIUM
  | HIGH
  | CRITICAL
deriving DecidableEq

structure RedFlagsResult where
  hasRedFlags : Bool
  count : ℕ
  flags : List RedFlag
  riskLevel : RiskLevel
deriving DecidableEq

/-- The volume ratio the red-flag detector computes:
`(volumeAnalysis?.totalVolume || 0) / (volumeAnalysis?.averageVolume || 1)`. -/
def redFlagVolRatio (va : VolumeAnalysis) : JSNum :=
  jsDiv va.totalVolume (jsOr va.averageVolume 1)

/-- comprehensive-analysis `analyzeRedFlags`: the five independent adverse
patterns, each appended with its severity, and the overall risk level from
the CRITICAL/HIGH/MEDIUM presence chain (titles, descriptions and
implication strings are presentation only). `brokerSummary` is the separate
argument the callers pass. -/
def analyzeRedFlags (price : PriceData) (ind : Indicators)
    (brokerSummary : List BrokerRow) : RedFlagsResult :=
  let priceChange := price.change_pct
  let volRatio := redFlagVolRatio ind.volumeAnalysis
  let f1 : List RedFlag :=
    if volRatio.gtv 2 ∧ priceChange < 0 then
      [{ type := .DISTRIBUTION, severity := .HIGH }]
    else []
  let sellingBrokers := brokerSummary.filter fun b => b.netValue < 0
  let f2 : List RedFlag :=
    if 3 ≤ sellingBrokers.length then
      [{ type := .BROADER_SELLING, severity := .HIGH }]
    else []
  let f3 : List RedFlag :=
    match ind.foreignStreak with
    | some fs =>
        if fs.detected ∧ fs.consecutiveDays ≤ -10 then
          [{ type := .FOREIGN_EXODUS, severity := .CRITICAL }]
        else []
    | none => []
  let f4 : List RedFlag :=
    if 2 < priceChange ∧ volRatio.ltv 0.8 then
      [{ type := .WEAK_RALLY, severity := .MEDIUM }]
    else []
  let hasBrokerAccumulation : Bool :=
    match ind.brokerConcentration with
    | some bc => bc.detected
    | none => false
  let hasForeignBuying : Bool := decide (0 < ind.foreignFlow.netValue)
  let f5 : List RedFlag :=
    if (5 < priceChange ∧ volRatio.gtv 2) ∧
        (¬hasBrokerAccumulation ∧ ¬hasForeignBuying) then
      [{ type := .PUMP_AND_DUMP, severity := .HIGH }]
    else []
  let redFlags := f1 ++ f2 ++ f3 ++ f4 ++ f5
  { hasRedFlags := !redFlags.isEmpty
    count := redFlags.length
    flags := redFlags
    riskLevel :=
      if redFlags.any fun f => f.severity = .CRITICAL then .CRITICAL
      else if redFlags.any fun f => f.severity = .HIGH then .HIGH
      else if redFlags.any fun f => f.severity = .MEDIUM then .MEDIUM
      else .LOW }

/-- The linear order LOW < MEDIUM < HIGH < CRITICAL on risk levels. -/
def riskRank : RiskLevel → ℕ
  | .LOW => 0
  | .MEDIUM => 1
  | .HIGH => 2
  | .CRITICAL => 3

/-- A flag severity viewed as a risk level. -/
def sevToRisk : FlagSeverity → RiskLevel
  | .MEDIUM => .MEDIUM
  | .HIGH => .HIGH
  | .CRITICAL => .CRITICAL

/-- Maximum of two risk levels under `riskRank`. -/
def riskMax (a b : RiskLevel) : RiskLevel :=
  if riskRank a ≤ riskRank b then b else a

/-- The maximum severity among a list of flags (`LOW` when there is none). -/
def maxSeverityOf (flags : List RedFlag) : RiskLevel :=
  flags.foldr (fun f acc => riskMax (sevToRisk f.severity) acc) .LOW

/-- Modelled from the spec: the canonical score-to-signal bands the spec
declares for both exported variants — "score≥70 → STRONG_BUY, ≥60 → BUY,
≥45 → HOLD, ≥35 → REDUCE, else SELL". Kept separate from the two mappings
embedded from the source so the claim can be compared against them. -/
def specCanonicalSignal (s : ℤ) : SignalV3 :=
  if 70 ≤ s then .STRONG_BUY
  else if 60 ≤ s then .BUY
  else if 45 ≤ s then .HOLD
  else if 35 ≤ s then .REDUCE
  else .SELL

/-! ## Factor accounting for the v3 engine

Every score delta of scoring-v3.js is pushed together with a factor string;
the lemmas below recover each analysis contribution as the sum of the
deltas of the factors it pushed, which is what makes confirmation-gating
arguments about "bullish factors" possible. -/

/-- Sum of the score deltas of a factor list. -/
def sumDeltasV3 (l : List FactorV3) : ℤ := (l.map factorDeltaV3).sum

lemma sumDeltasV3_append (a b : List FactorV3) :
    sumDeltasV3 (a ++ b) = sumDeltasV3 a + sumDeltasV3 b := by
  simp [sumDeltasV3]

lemma v3ConcGroup_delta (a b : ℚ) :
    (v3ConcGroup a b).1 = sumDeltasV3 (v3ConcGroup a b).2.1 := by
  unfold v3ConcGroup
  split_ifs <;> simp [sumDeltasV3, factorDeltaV3]

lemma v3BigDogGroup_delta (a : ℚ) (n : ℕ) (t : ℚ) :
    (v3BigDogGroup a n t).1 = sumDeltasV3 (v3BigDogGroup a n t).2.1 := by
  unfold v3BigDogGroup
  split_ifs <;> simp [sumDeltasV3, factorDeltaV3]

lemma v3ContraGroup_delta (a b c : ℚ) :
    (v3ContraGroup a b c).1 = sumDeltasV3 (v3ContraGroup a b c).2.1 := by
  unfold v3ContraGroup
  split_ifs <;> simp [sumDeltasV3, factorDeltaV3]

lemma v3AccumGroup_delta (a : ℚ) :
    (v3AccumGroup a).1 = sumDeltasV3 (v3AccumGroup a).2.1 := by
  unfold v3AccumGroup
  split_ifs <;> simp [sumDeltasV3, factorDeltaV3]

lemma v3SweetGroup_delta (a : ℚ) :
    (v3SweetGroup a).1 = sumDeltasV3 (v3SweetGroup a).2.1 := by
  unfold v3SweetGroup
  split_ifs <;> simp [sumDeltasV3, factorDeltaV3]

lemma v3VolGroup_delta (a : ℚ) :
    (v3VolGroup a).1 = sumDeltasV3 (v3VolGroup a).2 := by
  unfold v3VolGroup
  split_ifs <;> simp [sumDeltasV3, factorDeltaV3]

lemma v3CompressionGroup_delta (l : List Bar) :
    (v3CompressionGroup l).1 = sumDeltasV3 (v3CompressionGroup l).2 := by
  unfold v3CompressionGroup
  split_ifs <;> simp [sumDeltasV3, factorDeltaV3]

lemma v3BreakoutGroup_delta (a b c : ℚ) :
    (v3BreakoutGroup a b c).1 = sumDeltasV3 (v3BreakoutGroup a b c).2 := by
  unfold v3BreakoutGroup
  split_ifs <;> simp [sumDeltasV3, factorDeltaV3]

lemma v3StreakGroup_delta (s : StreakRec) :
    (v3StreakGroup s).1 = sumDeltasV3 (v3StreakGroup s).2.1 := by
  unfold v3StreakGroup
  split_ifs <;> simp [sumDeltasV3, factorDeltaV3]

lemma v3NetGroup_delta (a : ℚ) :
    (v3NetGroup a).1 = sumDeltasV3 (v3NetGroup a).2 := by
  unfold v3NetGroup
  split_ifs <;> simp [sumDeltasV3, factorDeltaV3]

lemma v3ObvGroup_delta (t : ObvTrend) :
    (v3ObvGroup t).1 = sumDeltasV3 (v3ObvGroup t).2 := by
  unfold v3ObvGroup
  split_ifs <;> simp [sumDeltasV3, factorDeltaV3]

lemma v3CmfGroup_delta (a : ℚ) :
    (v3CmfGroup a).1 = sumDeltasV3 (v3CmfGroup a).2 := by
  unfold v3CmfGroup
  split_ifs <;> simp [sumDeltasV3, factorDeltaV3]

lemma v3VwapGroup_delta (a : ℚ) :
    (v3VwapGroup a).1 = sumDeltasV3 (v3VwapGroup a).2 := by
  unfold v3VwapGroup
  split_ifs <;> simp [sumDeltasV3, factorDeltaV3]

lemma analyzeBrokerAccumulation_delta (bd : List BrokerV3)
    (ow : Option Ownership) (m : Metrics) :
    (analyzeBrokerAccumulation bd ow m).scoreContribution =
      sumDeltasV3 (analyzeBrokerAccumulation bd ow m).factors := by
  unfold analyzeBrokerAccumulation
  split_ifs
  · simp [sumDeltasV3, factorDeltaV3]
  · dsimp only
    simp only [sumDeltasV3_append, v3ConcGroup_delta, v3BigDogGroup_delta,
      v3ContraGroup_delta, v3AccumGroup_delta, v3SweetGroup_delta]

lemma analyzeVolumePrice_delta (p v : ℚ) (h : List Bar) (m : Metrics) :
    (analyzeVolumePrice p v h m).scoreContribution =
      sumDeltasV3 (analyzeVolumePrice p v h m).factors := by
  unfold analyzeVolumePrice
  dsimp only
  simp only [sumDeltasV3_append, v3VolGroup_delta, v3CompressionGroup_delta,
    v3BreakoutGroup_delta]

lemma analyzeForeignFlow_delta (fd : ForeignData) :
    (analyzeForeignFlow fd).scoreContribution =
      sumDeltasV3 (analyzeForeignFlow fd).factors := by
  unfold analyzeForeignFlow
  simp [sumDeltasV3_append, v3StreakGroup_delta, v3NetGroup_delta]

lemma analyzeQuantitativeIndicators_delta (h : List Bar) (p v : ℚ) :
    (analyzeQuantitativeIndicators h p v).scoreContribution =
      sumDeltasV3 (analyzeQuantitativeIndicators h p v).factors := by
  unfold analyzeQuantitativeIndicators
  split_ifs
  · simp [sumDeltasV3, factorDeltaV3]
  · dsimp only
    simp only [sumDeltasV3_append, v3ObvGroup_delta, v3CmfGroup_delta,
      v3VwapGroup_delta]

lemma analyzeRelativeStrength_delta (sd : StockDataV3) (mc : MarketContext) :
    (analyzeRelativeStrength sd mc).scoreContribution =
      sumDeltasV3 (analyzeRelativeStrength sd mc).factors := by
  unfold analyzeRelativeStrength
  rcases mc.ihsgChange with _ | ih <;> rcases sd.changePct with _ | cp <;>
    simp [sumDeltasV3, factorDeltaV3] <;>
    split_ifs <;> simp [sumDeltasV3, factorDeltaV3]

/-- The raw v3 score is 50 plus the deltas of exactly the factors reported. -/
lemma rawScoreV3_eq_factors (sd : StockDataV3) (mc : MarketContext) :
    rawScoreV3 sd mc =
      50 + sumDeltasV3 (calculateBandarScoreV3 sd mc).factors := by
  unfold rawScoreV3 calculateBandarScoreV3
  simp only [sumDeltasV3_append, analyzeBrokerAccumulation_delta,
    analyzeVolumePrice_delta, analyzeForeignFlow_delta,
    analyzeQuantitativeIndicators_delta, analyzeRelativeStrength_delta]
  ring

/-- The tier-1 high-conviction bullish factors in the claim's sense:
multi-day accumulation streaks (the Big-Dog multi-broker branch and the
≥5-day foreign buy streak), high broker concentration with net buying, and
a confirmed breakout over resistance on volume. -/
def tier1V3 : FactorV3 → Bool
  | .highConcentration => true
  | .bigDogAccumulation => true
  | .foreignBuyStreakF => true
  | .breakoutOnVolume => true
  | _ => false

lemma nonTier1_bullish_delta_le (f : FactorV3) (hb : 0 < factorDeltaV3 f)
    (ht : tier1V3 f = false) : factorDeltaV3 f ≤ 18 := by
  cases f <;> simp_all [factorDeltaV3, tier1V3]

lemma sumDeltasV3_nonpos (l : List FactorV3)
    (h : ∀ f ∈ l, factorDeltaV3 f ≤ 0) : sumDeltasV3 l ≤ 0 := by
  induction l with
  | nil => simp [sumDeltasV3]
  | cons a t ih =>
      have ha := h a (by simp)
      have ht := ih fun f hf => h f (by simp [hf])
      simp only [sumDeltasV3, List.map_cons, List.sum_cons] at *
      omega

/-- With exactly one bullish (score-increasing) factor that is not tier-1,
the total factor delta is at most +18 (the moderate-concentration weight,
the largest non-tier-1 bullish delta). -/
lemma sumDeltasV3_unique_bullish (l : List FactorV3)
    (h1 : l.countP (fun f => decide (0 < factorDeltaV3 f)) = 1)
    (h2 : ∀ f ∈ l, 0 < factorDeltaV3 f → tier1V3 f = false) :
    sumDeltasV3 l ≤ 18 := by
  induction l with
  | nil => simp [sumDeltasV3]
  | cons a t ih =>
      rw [List.countP_cons] at h1
      by_cases hb : 0 < factorDeltaV3 a
      · have hpa : (decide (0 < factorDeltaV3 a)) = true := decide_eq_true hb
        have hcount : t.countP (fun f => decide (0 < factorDeltaV3 f)) = 0 :=
          by simp only [hpa, if_true] at h1; omega
        have hall : ∀ f ∈ t, factorDeltaV3 f ≤ 0 := by
          intro f hf
          by_contra hpos
          have := List.countP_eq_zero.mp hcount f hf
          simp at this
          omega
        have hta := sumDeltasV3_nonpos t hall
        have hle := nonTier1_bullish_delta_le a hb (h2 a (by simp) hb)
        simp only [sumDeltasV3, List.map_cons, List.sum_cons] at *
        omega
      · have hpa : (decide (0 < factorDeltaV3 a)) = false :=
          decide_eq_false hb
        have hcount : t.countP (fun f => decide (0 < factorDeltaV3 f)) = 1 :=
          by simp only [hpa, if_false, Bool.false_eq_true] at h1; omega
        have ht := ih hcount fun f hf => h2 f (by simp [hf])
        have hd : factorDeltaV3 a ≤ 0 := by omega
        simp only [sumDeltasV3, List.map_cons, List.sum_cons] at *
        omega

lemma determineSignal_not_strong (s : ℤ) (conv : List ConvFactor)
    (h : s < 75) : (determineSignal s conv).1 ≠ SignalV3.STRONG_BUY := by
  unfold determineSignal
  split_ifs <;> simp <;> omega

/-! ## Claim theorems -/

/-- C1 (counterexample): the claimed canonical bands do not describe either
exported variant. At score 72 the spec's canonical mapping (≥70) gives
STRONG_BUY, but scoring-v3.js `determineSignal` (≥75) gives BUY, and
scoring.js (whose bands are 65/50 with no STRONG_BUY or SELL at all) also
gives BUY. -/
theorem canonical_bands_counterexample :
    specCanonicalSignal 72 = SignalV3.STRONG_BUY ∧
    (determineSignal 72 []).1 = SignalV3.BUY ∧
    (determineSignal 72 []).1 ≠ specCanonicalSignal 72 ∧
    signalFromScoreV1 72 = SignalV1.BUY := by
  refine ⟨by decide, by decide, by decide, by decide⟩

/-- C1 (amended): the actual score-to-signal bands. scoring-v3.js
`determineSignal` maps score ≥75 → STRONG_BUY, ≥60 → BUY, ≥45 → HOLD,
≥30 → REDUCE, else SELL; scoring.js maps score ≥65 → BUY, ≥50 → HOLD,
else REDUCE (it has no STRONG_BUY and no SELL band). -/
theorem signal_bands_of_both_variants (s : ℤ) (conv : List ConvFactor) :
    ((determineSignal s conv).1 = SignalV3.STRONG_BUY ↔ 75 ≤ s) ∧
    ((determineSignal s conv).1 = SignalV3.BUY ↔ 60 ≤ s ∧ s < 75) ∧
    ((determineSignal s conv).1 = SignalV3.HOLD ↔ 45 ≤ s ∧ s < 60) ∧
    ((determineSignal s conv).1 = SignalV3.REDUCE ↔ 30 ≤ s ∧ s < 45) ∧
    ((determineSignal s conv).1 = SignalV3.SELL ↔ s < 30) ∧
    (signalFromScoreV1 s = SignalV1.BUY ↔ 65 ≤ s) ∧
    (signalFromScoreV1 s = SignalV1.HOLD ↔ 50 ≤ s ∧ s < 65) ∧
    (signalFromScoreV1 s = SignalV1.REDUCE ↔ s < 50) := by
  unfold determineSignal signalFromScoreV1
  dsimp only
  split_ifs <;> simp_all <;> omega

/-- C1 (witness for the amended bands at a concrete score). -/
theorem signal_bands_witness :
    (determineSignal 76 []).1 = SignalV3.STRONG_BUY ∧
    signalFromScoreV1 66 = SignalV1.BUY :=
  ⟨(signal_bands_of_both_variants 76 []).1.mpr (by omega),
   (signal_bands_of_both_variants 66 []).2.2.2.2.2.1.mpr (by omega)⟩

/-- C2: an input to the v3 engine whose factor list contains exactly one
bullish (score-increasing) factor, none of the tier-1 high-conviction
signals among them, can never be classified STRONG_BUY: the largest
non-tier-1 bullish delta is +18, so the raw additive score is at most 68,
below the 75 cut point. -/
theorem v3_single_bullish_factor_never_strong_buy (sd : StockDataV3)
    (mc : MarketContext)
    (h1 : (calculateBandarScoreV3 sd mc).factors.countP
      (fun f => decide (0 < factorDeltaV3 f)) = 1)
    (h2 : ∀ f ∈ (calculateBandarScoreV3 sd mc).factors,
      0 < factorDeltaV3 f → tier1V3 f = false) :
    (calculateBandarScoreV3 sd mc).signal ≠ SignalV3.STRONG_BUY := by
  have hsum := sumDeltasV3_unique_bullish _ h1 h2
  have hraw := rawScoreV3_eq_factors sd mc
  have hscore : clampV3 (rawScoreV3 sd mc) < 75 := by unfold clampV3; omega
  have hsig : (calculateBandarScoreV3 sd mc).signal =
      (determineSignal (clampV3 (rawScoreV3 sd mc))
        (analyzeBrokerAccumulation sd.brokerData sd.ownership
          (calculateMetrics sd)).convictionFactors).1 := rfl
  rw [hsig]
  exact determineSignal_not_strong _ _ hscore

/-- The concrete C2 witness input: no broker data, no history, a single
moderate foreign inflow of Rp 0.6B — exactly one bullish factor
(`moderateForeignInflow`, +8), which is not tier-1. -/
def c2StockData : StockDataV3 :=
  { price := 0, volume := 0, changePct := none, historical := []
    brokerData := []
    foreignData := { netValue := 600000000, streak := none }
    ownership := none }

def c2Market : MarketContext := { ihsgChange := none }

/-- C2 (witness): the hypotheses hold at `c2StockData` and the signal is
indeed not STRONG_BUY. -/
theorem v3_single_bullish_witness :
    ((calculateBandarScoreV3 c2StockData c2Market).factors.countP
      (fun f => decide (0 < factorDeltaV3 f)) = 1) ∧
    (∀ f ∈ (calculateBandarScoreV3 c2StockData c2Market).factors,
      0 < factorDeltaV3 f → tier1V3 f = false) ∧
    (calculateBandarScoreV3 c2StockData c2Market).signal ≠
      SignalV3.STRONG_BUY :=
  ⟨by decide, by decide,
   v3_single_bullish_factor_never_strong_buy c2StockData c2Market
     (by decide) (by decide)⟩

/-- C3: in both exported variants the final score is the clamp of the raw
additive score into the declared closed interval (20..80 for scoring.js,
0..100 for scoring-v3.js), the signal is computed from the clamped score,
and the score-to-signal mapping is total (every score falls into exactly
one band — the mapping is a function, and its range is enumerated). -/
theorem score_clamped_and_mapping_total :
    (∀ (sd : PriceData) (ind : Indicators),
      20 ≤ (calculateBandarScoreV1 sd ind).score ∧
      (calculateBandarScoreV1 sd ind).score ≤ 80 ∧
      (calculateBandarScoreV1 sd ind).score = clampV1 (rawScoreV1 sd ind) ∧
      (calculateBandarScoreV1 sd ind).signal =
        signalFromScoreV1 (clampV1 (rawScoreV1 sd ind))) ∧
    (∀ s : ℤ, signalFromScoreV1 s = SignalV1.BUY ∨
      signalFromScoreV1 s = SignalV1.HOLD ∨
      signalFromScoreV1 s = SignalV1.REDUCE) ∧
    (∀ (sd : StockDataV3) (mc : MarketContext),
      0 ≤ (calculateBandarScoreV3 sd mc).score ∧
      (calculateBandarScoreV3 sd mc).score ≤ 100 ∧
      (calculateBandarScoreV3 sd mc).score = clampV3 (rawScoreV3 sd mc) ∧
      (calculateBandarScoreV3 sd mc).signal =
        (determineSignal (clampV3 (rawScoreV3 sd mc))
          (calculateBandarScoreV3 sd mc).convictionFactors).1) ∧
    (∀ (s : ℤ) (conv : List ConvFactor),
      (determineSignal s conv).1 = SignalV3.STRONG_BUY ∨
      (determineSignal s conv).1 = SignalV3.BUY ∨
      (determineSignal s conv).1 = SignalV3.HOLD ∨
      (determineSignal s conv).1 = SignalV3.REDUCE ∨
      (determineSignal s conv).1 = SignalV3.SELL) := by
  refine ⟨fun sd ind => ⟨?_, ?_, rfl, rfl⟩, fun s => ?_,
    fun sd mc => ⟨?_, ?_, rfl, rfl⟩, fun s conv => ?_⟩
  · have : (calculateBandarScoreV1 sd ind).score =
        clampV1 (rawScoreV1 sd ind) := rfl
    rw [this]; unfold clampV1; omega
  · have : (calculateBandarScoreV1 sd ind).score =
        clampV1 (rawScoreV1 sd ind) := rfl
    rw [this]; unfold clampV1; omega
  · unfold signalFromScoreV1; split_ifs <;> simp
  · have : (calculateBandarScoreV3 sd mc).score =
        clampV3 (rawScoreV3 sd mc) := rfl
    rw [this]; unfold clampV3; omega
  · have : (calculateBandarScoreV3 sd mc).score =
        clampV3 (rawScoreV3 sd mc) := rfl
    rw [this]; unfold clampV3; omega
  · unfold determineSignal; dsimp only; split_ifs <;> simp

/-- The buy-streak walk counts exactly the leading run of positive days and
sums it (it stops at the first zero or negative value). -/
lemma buyStreakWalk_eq (h : List ℚ) :
    buyStreakWalk h = ((h.takeWhile fun q => decide (0 < q)).length,
      (h.takeWhile fun q => decide (0 < q)).sum) := by
  induction h with
  | nil => rfl
  | cons v t ih =>
      by_cases hv : 0 < v
      · simp [buyStreakWalk, List.takeWhile_cons, hv, ih]
      · simp [buyStreakWalk, List.takeWhile_cons, hv]

/-- C4 (counterexample): on the claim's own input `[+5, +3, -2, +10]`
(most-recent-first) the detector reports no streak at all — server.js:531
only runs streak detection on at least 5 history rows, and this history has
4 — rather than the claimed 2-day streak with net 8. -/
theorem streak_counterexample :
    (detectForeignStreak [5, 3, -2, 10]).detected = false ∧
    (detectForeignStreak [5, 3, -2, 10]).consecutiveDays = 0 ∧
    (detectForeignStreak [5, 3, -2, 10]).totalNetValue = 0 := by
  refine ⟨by decide, by decide, by decide⟩

/-- C4 (amended): on a history of at least 5 rows, the detector walks
most-recent-first, counts the leading run of strictly positive days
(stopping at the first sign change or zero), and reports that run length
and its rounded total net value, provided the run is at least 2 days. -/
theorem streak_walk_amended (h : List ℚ) (h5 : 5 ≤ h.length)
    (h2 : 2 ≤ (h.takeWhile fun q => decide (0 < q)).length) :
    (detectForeignStreak h).detected = true ∧
    (detectForeignStreak h).consecutiveDays =
      ((h.takeWhile fun q => decide (0 < q)).length : ℤ) ∧
    (detectForeignStreak h).totalNetValue =
      jsRound (h.takeWhile fun q => decide (0 < q)).sum := by
  unfold detectForeignStreak
  rw [if_pos h5]
  simp only [buyStreakWalk_eq]
  rw [if_pos h2]
  exact ⟨rfl, rfl, rfl⟩

/-- C4 (witness): padding the claim's history to the 5-row minimum, e.g.
`[+5, +3, -2, +10, +1]`, yields the claimed behaviour: a buy streak of
exactly 2 days with total net value 8, stopping at the −2. -/
theorem streak_walk_witness :
    5 ≤ ([5, 3, -2, 10, 1] : List ℚ).length ∧
    2 ≤ (([5, 3, -2, 10, 1] : List ℚ).takeWhile fun q =>
      decide (0 < q)).length ∧
    (detectForeignStreak [5, 3, -2, 10, 1]).detected = true ∧
    (detectForeignStreak [5, 3, -2, 10, 1]).consecutiveDays = 2 ∧
    (detectForeignStreak [5, 3, -2, 10, 1]).totalNetValue = 8 := by
  have h := streak_walk_amended [5, 3, -2, 10, 1] (by decide) (by decide)
  refine ⟨by decide, by decide, h.1, ?_, ?_⟩
  · rw [h.2.1]; decide
  · rw [h.2.2]; norm_num [jsRound]

/-- A broker row whose only buyer reported value 0 for positive volume. -/
def zeroValueBuyer : BrokerRow :=
  { code := "AA", buyVolume := 10, buyValue := 0, sellVolume := 0
    sellValue := 0, netVolume := 10, netValue := 0, isForeign := false }

def price100Row : PriceData :=
  { open_ := 100, high := 100, low := 100, close := 100, change_pct := 0
    volume := 0 }

/-- C5 (counterexample): the premium-to-cost ratio is not zero-guarded.
With a broker summary whose weighted average cost is 0 (a buyer with
positive volume but zero value) and price 100, scoring.js:29 evaluates to
`+Infinity` — not a finite value. -/
theorem zero_guard_counterexample :
    avgBrokerCostV1 price100Row [zeroValueBuyer] = 0 ∧
    premiumToCostV1 price100Row [zeroValueBuyer] = JSNum.posInf ∧
    (premiumToCostV1 price100Row [zeroValueBuyer]).isFinite = false := by
  have hc : avgBrokerCostV1 price100Row [zeroValueBuyer] = 0 := by
    norm_num [avgBrokerCostV1, totalBuyValueV1, totalBuyLotsV1,
      zeroValueBuyer]
  have hp : premiumToCostV1 price100Row [zeroValueBuyer] = JSNum.posInf := by
    unfold premiumToCostV1
    rw [hc]
    norm_num [jsDiv, JSNum.scale, price100Row]
  exact ⟨hc, hp, by rw [hp]; rfl⟩

/-- C5 (amended): the volume ratio (scoring.js:75 and the red-flag
detector's copy), the bid-ask ratio (server.js:462) and the concentration
percentage (server.js:1238) are all zero-guarded and always produce a
finite value; the premium-to-cost percentage (scoring.js:29) is finite
exactly when the average broker cost is nonzero. -/
theorem zero_guard_amended :
    (∀ va : VolumeAnalysis, (volumeRatioV1 va).isFinite = true) ∧
    (∀ va : VolumeAnalysis, (redFlagVolRatio va).isFinite = true) ∧
    (∀ bid ask : ℚ, (bidAskRatioOf bid ask).isFinite = true) ∧
    (∀ ind : Indicators, (calculateForeignConcentration ind).isFinite =
      true) ∧
    (∀ (sd : PriceData) (bs : List BrokerRow),
      avgBrokerCostV1 sd bs ≠ 0 → (premiumToCostV1 sd bs).isFinite = true) :=
  by
  refine ⟨fun va => ?_, fun va => ?_, fun bid ask => ?_, fun ind => ?_,
    fun sd bs hne => ?_⟩
  · unfold volumeRatioV1 jsDiv jsOr
    by_cases h : va.averageVolume = 0 <;> simp [h, JSNum.isFinite]
  · unfold redFlagVolRatio jsDiv jsOr
    by_cases h : va.averageVolume = 0 <;> simp [h, JSNum.isFinite]
  · unfold bidAskRatioOf jsDiv
    by_cases h : 0 < ask
    · simp [h, h.ne', JSNum.isFinite]
    · simp [h, JSNum.isFinite]
  · unfold calculateForeignConcentration jsDiv
    by_cases h : ind.totals.buyValue = 0 <;>
      simp [h, JSNum.isFinite, JSNum.scale, JSNum.roundN]
  · unfold premiumToCostV1 jsDiv
    simp [hne, JSNum.isFinite, JSNum.scale]

/-- C5 (witness): with any broker actually buying at a nonzero cost — or,
as here, with no buyers and a nonzero close — the premium is finite. -/
theorem zero_guard_witness :
    avgBrokerCostV1 price100Row [] ≠ 0 ∧
    (premiumToCostV1 price100Row []).isFinite = true :=
  ⟨by decide, zero_guard_amended.2.2.2.2 price100Row [] (by decide)⟩

/-- C6 (counterexample): the detector's thresholds are 1.15 and 0.85, which
are not reciprocal (1/1.15 = 20/23 ≈ 0.8696 ≠ 0.85). At a bid-ask ratio of
0.86 — below 1/1.15, so the claimed reciprocal-symmetric detector would
report DISTRIBUTION — the code (server.js:480 requires ratio < 0.85)
detects nothing. -/
theorem bidask_symmetry_counterexample :
    bidAskRatioOf 86 100 = JSNum.finite (86 / 100) ∧
    (86 : ℚ) / 100 < 1 / (1.15 : ℚ) ∧
    (detectBidAskImbalance 86 100 0).signal ≠ BaiSignal.DISTRIBUTION ∧
    (detectBidAskImbalance 86 100 0).detected = false := by
  have hdet : detectBidAskImbalance 86 100 0 =
      { detected := false, ratio := .finite 1, signal := .NEUTRAL
        severity := .NONE, buyPressure := .finite 0 } := by
    norm_num [detectBidAskImbalance, bidAskRatioOf, jsDiv, JSNum.gtv,
      JSNum.ltv]
  refine ⟨?_, by norm_num, by rw [hdet]; decide, by rw [hdet]⟩
  norm_num [bidAskRatioOf, jsDiv]

/-- C6 (amended): the thresholds are additively symmetric around 1.0 —
the accumulation side requires a ratio above 1 + 0.15, the distribution
side a ratio below 1 − 0.15 — and the two firing conditions are mutually
exclusive, so no single input yields both an accumulation-side signal and
DISTRIBUTION. -/
theorem bidask_thresholds_amended (bid ask pc : ℚ) :
    (((detectBidAskImbalance bid ask pc).signal =
        BaiSignal.STEALTH_ACCUMULATION ∨
      (detectBidAskImbalance bid ask pc).signal = BaiSignal.HIDDEN_SUPPORT) →
      (bidAskRatioOf bid ask).gtv (1 + 0.15) = true) ∧
    ((detectBidAskImbalance bid ask pc).signal = BaiSignal.DISTRIBUTION →
      (bidAskRatioOf bid ask).ltv (1 - 0.15) = true) ∧
    ¬((bidAskRatioOf bid ask).gtv (1 + 0.15) = true ∧
      (bidAskRatioOf bid ask).ltv (1 - 0.15) = true) := by
  have h115 : (1 : ℚ) + 0.15 = 1.15 := by norm_num
  have h085 : (1 : ℚ) - 0.15 = 0.85 := by norm_num
  rw [h115, h085]
  refine ⟨?_, ?_, ?_⟩
  · unfold detectBidAskImbalance
    dsimp only
    split_ifs with h1 h2 h3 h4 <;> simp_all
  · unfold detectBidAskImbalance
    dsimp only
    split_ifs with h1 h2 h3 h4 <;> simp_all
  · rintro ⟨hg, hl⟩
    rcases hr : bidAskRatioOf bid ask with q | _ | _ | _ <;>
      rw [hr] at hg hl <;> simp [JSNum.gtv, JSNum.ltv] at hg hl
    linarith

/-- C6 (witness): at a 1.4 ratio with the price down 1%, the detector
reports STEALTH_ACCUMULATION, and the amended threshold bound holds. -/
theorem bidask_thresholds_witness :
    (detectBidAskImbalance 140 100 (-1)).signal =
      BaiSignal.STEALTH_ACCUMULATION ∧
    (bidAskRatioOf 140 100).gtv (1 + 0.15) = true := by
  have hsig : (detectBidAskImbalance 140 100 (-1)).signal =
      BaiSignal.STEALTH_ACCUMULATION := by
    norm_num [detectBidAskImbalance, bidAskRatioOf, jsDiv, JSNum.gtv,
      JSNum.ltv]
  exact ⟨hsig, (bidask_thresholds_amended 140 100 (-1)).1 (Or.inl hsig)⟩

lemma riskRank_le_max_left (a b : RiskLevel) :
    riskRank a ≤ riskRank (riskMax a b) := by
  unfold riskMax
  split_ifs <;> omega

lemma riskRank_le_max_right (a b : RiskLevel) :
    riskRank b ≤ riskRank (riskMax a b) := by
  unfold riskMax
  split_ifs <;> omega

/-- Any member's severity is bounded by the maximum severity of the list. -/
lemma sev_le_maxSeverityOf (l : List RedFlag) (f : RedFlag) (hf : f ∈ l) :
    riskRank (sevToRisk f.severity) ≤ riskRank (maxSeverityOf l) := by
  induction l with
  | nil => cases hf
  | cons a t ih =>
      simp only [maxSeverityOf, List.foldr_cons]
      rcases List.mem_cons.mp hf with h | h
      · rw [h]; exact riskRank_le_max_left _ _
      · exact le_trans (ih h) (riskRank_le_max_right _ _)

/-- The CRITICAL/HIGH/MEDIUM presence chain of `analyzeRedFlags` computes
exactly the maximum severity of the flag list. -/
lemma riskChain_eq_max (l : List RedFlag) :
    (if l.any fun f => f.severity = FlagSeverity.CRITICAL then
      RiskLevel.CRITICAL
     else if l.any fun f => f.severity = FlagSeverity.HIGH then RiskLevel.HIGH
     else if l.any fun f => f.severity = FlagSeverity.MEDIUM then
      RiskLevel.MEDIUM
     else RiskLevel.LOW) = maxSeverityOf l := by
  induction l with
  | nil => simp [maxSeverityOf]
  | cons a t ih =>
      rw [show maxSeverityOf (a :: t) =
        riskMax (sevToRisk a.severity) (maxSeverityOf t) from rfl, ← ih]
      rcases hc : t.any (fun f => f.severity = FlagSeverity.CRITICAL) <;>
        rcases hh : t.any (fun f => f.severity = FlagSeverity.HIGH) <;>
        rcases hm : t.any (fun f => f.severity = FlagSeverity.MEDIUM) <;>
        cases ha : a.severity <;>
        simp [List.any_cons, ha, hc, hh, hm, riskMax, sevToRisk, riskRank]

/-- C7: whenever the volume ratio exceeds 2.0 and the price change is
negative, the red-flag detector raises a DISTRIBUTION flag of severity
HIGH; and on every input the returned risk level equals the maximum
severity among the detected flags, hence is at least HIGH in that
scenario. -/
theorem redflags_distribution (price : PriceData) (ind : Indicators)
    (bs : List BrokerRow)
    (hv : (redFlagVolRatio ind.volumeAnalysis).gtv 2 = true)
    (hp : price.change_pct < 0) :
    ({ type := FlagType.DISTRIBUTION, severity := FlagSeverity.HIGH } :
      RedFlag) ∈ (analyzeRedFlags price ind bs).flags ∧
    (analyzeRedFlags price ind bs).riskLevel =
      maxSeverityOf (analyzeRedFlags price ind bs).flags ∧
    riskRank RiskLevel.HIGH ≤
      riskRank (analyzeRedFlags price ind bs).riskLevel := by
  have hmem : ({ type := FlagType.DISTRIBUTION, severity := FlagSeverity.HIGH } : RedFlag) ∈
      (analyzeRedFlags price ind bs).flags := by
    unfold analyzeRedFlags
    dsimp only
    rw [if_pos ⟨hv, hp⟩]
    simp
  have hmax : (analyzeRedFlags price ind bs).riskLevel =
      maxSeverityOf (analyzeRedFlags price ind bs).flags := by
    unfold analyzeRedFlags
    dsimp only
    exact riskChain_eq_max _
  refine ⟨hmem, hmax, ?_⟩
  rw [hmax]
  have := sev_le_maxSeverityOf (analyzeRedFlags price ind bs).flags _ hmem
  simpa [sevToRisk] using this

/-- The C7 witness input: 3.0× volume on a −4% day. -/
def c7Price : PriceData :=
  { open_ := 100, high := 102, low := 95, close := 96, change_pct := -4
    volume := 300 }

def c7Ind : Indicators :=
  { generateBasicIndicators c7Price with
      volumeAnalysis :=
        { totalVolume := 300, averageVolume := 100, volumeVsAvg := 200
          volumeSpike := none, volumeDryUp := none, bidAskImbalance := none } }

/-- C7 (witness): at 3.0× volume and −4% price change the hypotheses hold,
the DISTRIBUTION/HIGH flag is raised, and the risk level is at least HIGH. -/
theorem redflags_distribution_witness :
    (redFlagVolRatio c7Ind.volumeAnalysis).gtv 2 = true ∧
    c7Price.change_pct < 0 ∧
    ({ type := FlagType.DISTRIBUTION, severity := FlagSeverity.HIGH } :
      RedFlag) ∈ (analyzeRedFlags c7Price c7Ind []).flags ∧
    riskRank RiskLevel.HIGH ≤
      riskRank (analyzeRedFlags c7Price c7Ind []).riskLevel := by
  have hv : (redFlagVolRatio c7Ind.volumeAnalysis).gtv 2 = true := by
    norm_num [redFlagVolRatio, c7Ind, jsDiv, jsOr, JSNum.gtv,
      generateBasicIndicators]
  have hp : c7Price.change_pct < 0 := by norm_num [c7Price]
  have h := redflags_distribution c7Price c7Ind [] hv hp
  exact ⟨hv, hp, h.1, h.2.2⟩

lemma v1ForeignRule_mono (v v' : ℚ) (h : v ≤ v') :
    (v1ForeignRule v).1 ≤ (v1ForeignRule v').1 := by
  have hd : v / 1000000000 ≤ v' / 1000000000 := by
    apply div_le_div_of_nonneg_right h
    norm_num
  unfold v1ForeignRule
  dsimp only
  split_ifs <;> norm_num <;> linarith

lemma v1TopBrokerRule_mono (t t' : ℚ) (h : t ≤ t') :
    (v1TopBrokerRule t).1 ≤ (v1TopBrokerRule t').1 := by
  unfold v1TopBrokerRule
  split_ifs <;> norm_num <;> linarith

lemma v3NetGroup_mono (v v' : ℚ) (h : v ≤ v') :
    (v3NetGroup v).1 ≤ (v3NetGroup v').1 := by
  unfold v3NetGroup
  split_ifs <;> norm_num <;> linarith

/-- C8: monotonicity of the final score in the foreign net value and in the
top-broker net value. In scoring.js, raising `foreignFlow.netValue` (all
other bundle fields fixed) never lowers the clamped score, and replacing
the broker summary by one with the same buy-side cost aggregates but a
higher top-3 net value never lowers it either; in scoring-v3.js, raising
`foreignData.netValue` (streak record fixed) never lowers the score. -/
theorem score_monotonicity :
    (∀ (sd : PriceData) (ind : Indicators) (v v' : ℚ), v ≤ v' →
      (calculateBandarScoreV1 sd
        { ind with foreignFlow :=
            { ind.foreignFlow with netValue := v } }).score ≤
      (calculateBandarScoreV1 sd
        { ind with foreignFlow :=
            { ind.foreignFlow with netValue := v' } }).score) ∧
    (∀ (sd : PriceData) (ind : Indicators) (bs bs' : List BrokerRow),
      totalBuyValueV1 bs = totalBuyValueV1 bs' →
      totalBuyLotsV1 bs = totalBuyLotsV1 bs' →
      top3NetValueV1 bs ≤ top3NetValueV1 bs' →
      (calculateBandarScoreV1 sd { ind with brokerSummary := bs }).score ≤
      (calculateBandarScoreV1 sd { ind with brokerSummary := bs' }).score) ∧
    (∀ (sd : StockDataV3) (mc : MarketContext) (st : Option StreakRec)
      (v v' : ℚ), v ≤ v' →
      (calculateBandarScoreV3
        { sd with foreignData := { netValue := v, streak := st } } mc).score ≤
      (calculateBandarScoreV3
        { sd with foreignData := { netValue := v', streak := st } }
        mc).score) := by
  refine ⟨fun sd ind v v' h => ?_, fun sd ind bs bs' hbv hbl htop => ?_,
    fun sd mc st v v' h => ?_⟩
  · have hm := v1ForeignRule_mono v v' h
    show clampV1 (rawScoreV1 sd _) ≤ clampV1 (rawScoreV1 sd _)
    unfold clampV1 rawScoreV1 priceChangeV1
    dsimp only
    omega
  · have hm := v1TopBrokerRule_mono _ _ htop
    have hc : premiumToCostV1 sd bs = premiumToCostV1 sd bs' := by
      unfold premiumToCostV1 avgBrokerCostV1
      rw [hbv, hbl]
    show clampV1 (rawScoreV1 sd _) ≤ clampV1 (rawScoreV1 sd _)
    unfold clampV1 rawScoreV1 priceChangeV1
    dsimp only
    rw [hc]
    omega
  · have hm := v3NetGroup_mono v v' h
    show clampV3 (rawScoreV3 _ mc) ≤ clampV3 (rawScoreV3 _ mc)
    unfold clampV3 rawScoreV3 calculateMetrics analyzeForeignFlow
      analyzeRelativeStrength
    dsimp only
    omega

/-- C8 (witness): concrete instances of all three monotonicity parts. -/
theorem score_monotonicity_witness :
    ((0 : ℚ) ≤ 2000000000) ∧
    (calculateBandarScoreV1 c7Price
      { generateBasicIndicators c7Price with foreignFlow :=
          { (generateBasicIndicators c7Price).foreignFlow with
              netValue := 0 } }).score ≤
    (calculateBandarScoreV1 c7Price
      { generateBasicIndicators c7Price with foreignFlow :=
          { (generateBasicIndicators c7Price).foreignFlow with
              netValue := 2000000000 } }).score ∧
    (calculateBandarScoreV1 c7Price
      { generateBasicIndicators c7Price with brokerSummary := [] }).score ≤
    (calculateBandarScoreV1 c7Price
      { generateBasicIndicators c7Price with brokerSummary := [] }).score ∧
    (calculateBandarScoreV3
      { c2StockData with foreignData := { netValue := 0, streak := none } }
      c2Market).score ≤
    (calculateBandarScoreV3
      { c2StockData with foreignData :=
          { netValue := 2000000000, streak := none } } c2Market).score :=
  ⟨by norm_num,
   score_monotonicity.1 c7Price (generateBasicIndicators c7Price) 0
     2000000000 (by norm_num),
   score_monotonicity.2.1 c7Price (generateBasicIndicators c7Price) [] []
     rfl rfl le_rfl,
   score_monotonicity.2.2 c2StockData c2Market none 0 2000000000
     (by norm_num)⟩

/-- The factors contributed by the price-action rules of scoring.js. -/
def isPriceActionFactorV1 : FactorV1 → Bool
  | .priceCompressionFactor => true
  | .bearTrapFactor => true
  | .healthyPullback => true
  | .floorDefenseFactor => true
  | .gapUpBreakoutFactor => true
  | _ => false

lemma totalBuyLotsV1_no_buyers (bs : List BrokerRow)
    (h : ∀ b ∈ bs, ¬ 0 < b.buyVolume) : totalBuyLotsV1 bs = 0 := by
  unfold totalBuyLotsV1
  have hf : bs.filter (fun b => 0 < b.buyVolume) = [] := by
    rw [List.filter_eq_nil]
    intro b hb
    simpa using h b hb
  rw [hf]
  rfl

lemma avgBrokerCostV1_no_buyers (sd : PriceData) (bs : List BrokerRow)
    (h : ∀ b ∈ bs, ¬ 0 < b.buyVolume) : avgBrokerCostV1 sd bs = sd.close := by
  unfold avgBrokerCostV1
  rw [totalBuyLotsV1_no_buyers bs h]
  simp

/-- With no buying broker, the premium falls back to comparing the close
with itself: 0 for a nonzero close, `NaN` for a zero close. -/
lemma premiumToCostV1_no_buyers (sd : PriceData) (bs : List BrokerRow)
    (h : ∀ b ∈ bs, ¬ 0 < b.buyVolume) :
    premiumToCostV1 sd bs =
      if sd.close = 0 then JSNum.nan else JSNum.finite 0 := by
  unfold premiumToCostV1
  rw [avgBrokerCostV1_no_buyers sd bs h]
  by_cases hc : sd.close = 0
  · simp [hc, jsDiv, JSNum.scale]
  · simp [hc, jsDiv, JSNum.scale, sub_self]

lemma v1CostRule_no_buyers (sd : PriceData) (bs : List BrokerRow)
    (h : ∀ b ∈ bs, ¬ 0 < b.buyVolume) :
    v1CostRule (premiumToCostV1 sd bs) = (0, []) := by
  rw [premiumToCostV1_no_buyers sd bs h]
  by_cases hc : sd.close = 0 <;>
    norm_num [hc, v1CostRule, JSNum.ltv]

lemma volumeRatioV1_same_gtv (va : VolumeAnalysis)
    (h : va.totalVolume = va.averageVolume) :
    (volumeRatioV1 va).gtv 2 = false := by
  unfold volumeRatioV1 jsDiv jsOr
  by_cases h0 : va.averageVolume = 0
  · rw [h, h0]
    norm_num [JSNum.gtv]
  · rw [h]
    simp only [h0, if_false, if_neg h0]
    norm_num [JSNum.gtv, div_self h0]

lemma v1PaRule_nonneg (pa : Option PriceActionInfo) : 0 ≤ (v1PaRule pa).1 := by
  unfold v1PaRule
  rcases pa with _ | p
  · norm_num
  · dsimp only
    split_ifs <;> norm_num

lemma v1PaRule_le_50 (pa : Option PriceActionInfo) : (v1PaRule pa).1 ≤ 50 := by
  unfold v1PaRule
  rcases pa with _ | p
  · norm_num
  · dsimp only
    split_ifs <;> norm_num

lemma v1PaRule_factors_pa (pa : Option PriceActionInfo) :
    ((v1PaRule pa).2.all fun f => isPriceActionFactorV1 f) = true := by
  unfold v1PaRule
  rcases pa with _ | p
  · rfl
  · dsimp only
    split_ifs <;> simp [isPriceActionFactorV1]

/-- On the basic bundle every non-price-action rule contributes nothing:
the raw score is 50 plus the price-action deltas, and the factor list is
exactly the price-action factors. -/
lemma basic_bundle_rules (pd : PriceData) :
    rawScoreV1 pd (generateBasicIndicators pd) =
      50 + (v1PaRule (some (generatePriceActionIndicators pd pd.volume))).1 ∧
    factorsV1 pd (generateBasicIndicators pd) =
      (v1PaRule (some (generatePriceActionIndicators pd pd.volume))).2 := by
  have hcost := v1CostRule_no_buyers pd [] (by simp)
  have hgtv : (volumeRatioV1
      (generateBasicIndicators pd).volumeAnalysis).gtv 2 = false := by
    apply volumeRatioV1_same_gtv
    rfl
  have hvol : v1VolumeConfirmRule
      (volumeRatioV1 (generateBasicIndicators pd).volumeAnalysis)
      (priceChangeV1 (generateBasicIndicators pd)) = (0, []) := by
    unfold v1VolumeConfirmRule
    rw [if_neg]
    intro hand
    rw [hgtv] at hand
    exact Bool.false_ne_true hand.1
  have hforeign : v1ForeignRule (0 : ℚ) = (0, []) := by
    norm_num [v1ForeignRule]
  have htop : v1TopBrokerRule (top3NetValueV1 []) = (0, []) := by
    norm_num [v1TopBrokerRule, top3NetValueV1, List.insertionSort]
  constructor
  · show (50 : ℤ) + _ + _ + _ + _ + _ + _ + _ + _ + _ + _ = _
    rw [show (generateBasicIndicators pd).foreignFlow.netValue = 0 from rfl,
      show (generateBasicIndicators pd).brokerSummary = [] from rfl]
    rw [hforeign, htop, hcost, hvol]
    rw [show (generateBasicIndicators pd).volumeAnalysis.volumeSpike =
      some { detected := false, ratio := 1, severity := .NONE
             signal := .NORMAL } from rfl]
    rw [show (generateBasicIndicators pd).volumeAnalysis.volumeDryUp =
      none from rfl]
    rw [show (generateBasicIndicators pd).volumeAnalysis.bidAskImbalance =
      none from rfl]
    rw [show (generateBasicIndicators pd).foreignStreak = none from rfl]
    rw [show (generateBasicIndicators pd).brokerConcentration = none
      from rfl]
    rw [show (generateBasicIndicators pd).priceAction =
      some (generatePriceActionIndicators pd pd.volume) from rfl]
    norm_num [v1SpikeRule, v1VduRule, v1BaiRule, v1StreakRule, v1ConcRule]
  · show _ ++ _ ++ _ ++ _ ++ _ ++ _ ++ _ ++ _ ++ _ ++ _ = _
    rw [show (generateBasicIndicators pd).foreignFlow.netValue = 0 from rfl,
      show (generateBasicIndicators pd).brokerSummary = [] from rfl]
    rw [hforeign, htop, hcost, hvol]
    rw [show (generateBasicIndicators pd).volumeAnalysis.volumeSpike =
      some { detected := false, ratio := 1, severity := .NONE
             signal := .NORMAL } from rfl]
    rw [show (generateBasicIndicators pd).volumeAnalysis.volumeDryUp =
      none from rfl]
    rw [show (generateBasicIndicators pd).volumeAnalysis.bidAskImbalance =
      none from rfl]
    rw [show (generateBasicIndicators pd).foreignStreak = none from rfl]
    rw [show (generateBasicIndicators pd).brokerConcentration = none
      from rfl]
    rw [show (generateBasicIndicators pd).priceAction =
      some (generatePriceActionIndicators pd pd.volume) from rfl]
    norm_num [v1SpikeRule, v1VduRule, v1BaiRule, v1StreakRule, v1ConcRule]

/-- A quiet price row: modest range, flat close, no pattern fires. -/
def neutralPriceRow : PriceData :=
  { open_ := 100, high := 103, low := 98, close := 100, change_pct := 0
    volume := 1000 }

/-- C9: with no broker-transaction rows the deriver returns the basic
(degraded) bundle — as it does on its internal-failure path, see
`generateBandarIndicators` — whose counts are all zero and whose signals
are neutral; and the scoring engine applied to that bundle still returns a
valid, neutral-leaning ScoreResult: the score stays in 50..80, every
reported factor is a price-action factor (no broker, foreign, volume or
streak factor can fire), and on a quiet price row the result is exactly
the neutral 50/HOLD with no factors. -/
theorem degraded_bundle_scores_neutrally :
    (∀ pd : PriceData,
      generateBandarIndicators [] pd = generateBasicIndicators pd) ∧
    (∀ pd : PriceData,
      (generateBasicIndicators pd).brokerSummary = [] ∧
      (generateBasicIndicators pd).foreignFlow =
        { buy := 0, sell := 0, net := 0, buyValue := 0, sellValue := 0
          netValue := 0 } ∧
      (generateBasicIndicators pd).totals =
        { buyVolume := 0, buyValue := 0, sellVolume := 0, sellValue := 0
          netVolume := 0, netValue := 0 } ∧
      (generateBasicIndicators pd).largeLotTransactions =
        { count := 0, volume := 0, value := 0 } ∧
      (generateBasicIndicators pd).transaksiNego =
        { volume := 0, value := 0, count := 0 } ∧
      (generateBasicIndicators pd).foreignStreak = none ∧
      (generateBasicIndicators pd).brokerConcentration = none) ∧
    (∀ pd : PriceData,
      50 ≤ (calculateBandarScoreV1 pd (generateBasicIndicators pd)).score ∧
      (calculateBandarScoreV1 pd (generateBasicIndicators pd)).score ≤ 80 ∧
      ((calculateBandarScoreV1 pd
        (generateBasicIndicators pd)).factors.all
          fun f => isPriceActionFactorV1 f) = true) ∧
    ((calculateBandarScoreV1 neutralPriceRow
        (generateBasicIndicators neutralPriceRow)).score = 50 ∧
      (calculateBandarScoreV1 neutralPriceRow
        (generateBasicIndicators neutralPriceRow)).signal = SignalV1.HOLD ∧
      (calculateBandarScoreV1 neutralPriceRow
        (generateBasicIndicators neutralPriceRow)).factors = []) := by
  refine ⟨fun pd => rfl,
    fun pd => ⟨rfl, rfl, rfl, rfl, rfl, rfl, rfl⟩,
    fun pd => ?_, ?_⟩
  · have hb := basic_bundle_rules pd
    have hs : (calculateBandarScoreV1 pd (generateBasicIndicators pd)).score
        = clampV1 (rawScoreV1 pd (generateBasicIndicators pd)) := rfl
    have hlo := v1PaRule_nonneg
      (some (generatePriceActionIndicators pd pd.volume))
    have hhi := v1PaRule_le_50
      (some (generatePriceActionIndicators pd pd.volume))
    refine ⟨?_, ?_, ?_⟩
    · rw [hs, hb.1]; unfold clampV1; omega
    · rw [hs, hb.1]; unfold clampV1; omega
    · have hf : (calculateBandarScoreV1 pd
          (generateBasicIndicators pd)).factors =
          factorsV1 pd (generateBasicIndicators pd) := rfl
      rw [hf, hb.2]
      exact v1PaRule_factors_pa _
  · have hb := basic_bundle_rules neutralPriceRow
    have hpa : v1PaRule (some (generatePriceActionIndicators neutralPriceRow
        neutralPriceRow.volume)) = (0, []) := by
      norm_num [v1PaRule, generatePriceActionIndicators, neutralPriceRow,
        jsOr, jsDiv, JSNum.scale, JSNum.lev, JSNum.gtv, JSNum.rsub,
        JSNum.divN, JSNum.fix2, jsRound]
    have hs : (calculateBandarScoreV1 neutralPriceRow
        (generateBasicIndicators neutralPriceRow)).score =
        clampV1 (rawScoreV1 neutralPriceRow
          (generateBasicIndicators neutralPriceRow)) := rfl
    have hsig : (calculateBandarScoreV1 neutralPriceRow
        (generateBasicIndicators neutralPriceRow)).signal =
        signalFromScoreV1 (clampV1 (rawScoreV1 neutralPriceRow
          (generateBasicIndicators neutralPriceRow))) := rfl
    have hraw : rawScoreV1 neutralPriceRow
        (generateBasicIndicators neutralPriceRow) = 50 := by
      rw [hb.1, hpa]
      rfl
    refine ⟨?_, ?_, ?_⟩
    · rw [hs, hraw]; rfl
    · rw [hsig, hraw]; rfl
    · have hf : (calculateBandarScoreV1 neutralPriceRow
          (generateBasicIndicators neutralPriceRow)).factors =
          factorsV1 neutralPriceRow
            (generateBasicIndicators neutralPriceRow) := rfl
      rw [hf, hb.2, hpa]

lemma below_notin_foreign (x : ℚ) :
    FactorV1.belowBrokerCost ∉ (v1ForeignRule x).2 := by
  unfold v1ForeignRule
  dsimp only
  split_ifs <;> simp

lemma below_notin_top (x : ℚ) :
    FactorV1.belowBrokerCost ∉ (v1TopBrokerRule x).2 := by
  unfold v1TopBrokerRule
  split_ifs <;> simp

lemma below_notin_volconf (r : JSNum) (pc : ℚ) :
    FactorV1.belowBrokerCost ∉ (v1VolumeConfirmRule r pc).2 := by
  unfold v1VolumeConfirmRule
  split_ifs <;> simp

lemma below_notin_spike (vs : Option VolumeSpike) :
    FactorV1.belowBrokerCost ∉ (v1SpikeRule vs).2 := by
  unfold v1SpikeRule
  rcases vs with _ | v
  · simp
  · dsimp only
    split_ifs <;> simp

lemma below_notin_vdu (v : Option VolumeDryUp) :
    FactorV1.belowBrokerCost ∉ (v1VduRule v).2 := by
  unfold v1VduRule
  rcases v with _ | v
  · simp
  · dsimp only
    split_ifs <;> simp

lemma below_notin_bai (b : Option BidAskImbalance) :
    FactorV1.belowBrokerCost ∉ (v1BaiRule b).2 := by
  unfold v1BaiRule
  rcases b with _ | b
  · simp
  · dsimp only
    split_ifs <;> simp

lemma below_notin_streak (f : Option ForeignStreakInfo) :
    FactorV1.belowBrokerCost ∉ (v1StreakRule f).2 := by
  unfold v1StreakRule
  rcases f with _ | f
  · simp
  · dsimp only
    split_ifs <;> simp

lemma below_notin_conc (c : Option BrokerConcentrationInfo) :
    FactorV1.belowBrokerCost ∉ (v1ConcRule c).2 := by
  unfold v1ConcRule
  rcases c with _ | c
  · simp
  · dsimp only
    split_ifs <;> simp

lemma below_notin_pa (pa : Option PriceActionInfo) :
    FactorV1.belowBrokerCost ∉ (v1PaRule pa).2 := by
  unfold v1PaRule
  rcases pa with _ | p
  · simp
  · dsimp only
    split_ifs <;> simp

lemma below_mem_cost (p : JSNum) :
    FactorV1.belowBrokerCost ∈ (v1CostRule p).2 → p.ltv (-5) = true := by
  unfold v1CostRule
  split_ifs with h <;> simp_all

def zeroPriceRow : PriceData :=
  { open_ := 0, high := 0, low := 0, close := 0, change_pct := 0
    volume := 0 }

/-- C10 (counterexample): with no buying broker AND a zero close price the
fallback sets `avgBrokerCost = close = 0`, and scoring.js:29 then evaluates
`premiumToCost` to `NaN` — not to the claimed 0 (the factor still cannot
fire, but the claim's "premiumToCost evaluates to 0" is false on this
input). -/
theorem below_cost_counterexample :
    (∀ b ∈ (generateBasicIndicators zeroPriceRow).brokerSummary,
      ¬ 0 < b.buyVolume) ∧
    (calculateBandarScoreV1 zeroPriceRow
      (generateBasicIndicators zeroPriceRow)).premiumToCost = JSNum.nan ∧
    JSNum.nan ≠ JSNum.finite 0 := by
  refine ⟨by simp [generateBasicIndicators], ?_, by decide⟩
  have h : (calculateBandarScoreV1 zeroPriceRow
      (generateBasicIndicators zeroPriceRow)).premiumToCost =
      premiumToCostV1 zeroPriceRow [] := rfl
  rw [h, premiumToCostV1_no_buyers _ _ (by simp)]
  rfl

/-- C10 (amended): if no broker in the summary has positive buy volume
(including an empty summary), the average broker cost falls back to the
current close; the premium is then the finite 0 whenever the close is
nonzero (and `NaN` when it is zero — see the counterexample), and in
either case the "Below broker cost" factor can never fire. -/
theorem below_cost_amended (sd : PriceData) (ind : Indicators)
    (h : ∀ b ∈ ind.brokerSummary, ¬ 0 < b.buyVolume) :
    avgBrokerCostV1 sd ind.brokerSummary = sd.close ∧
    (sd.close ≠ 0 →
      premiumToCostV1 sd ind.brokerSummary = JSNum.finite 0) ∧
    FactorV1.belowBrokerCost ∉ (calculateBandarScoreV1 sd ind).factors := by
  refine ⟨avgBrokerCostV1_no_buyers sd _ h, fun hc => ?_, ?_⟩
  · rw [premiumToCostV1_no_buyers sd _ h]
    simp [hc]
  · intro hmem
    have hf : (calculateBandarScoreV1 sd ind).factors =
        factorsV1 sd ind := rfl
    rw [hf] at hmem
    unfold factorsV1 at hmem
    simp only [List.mem_append] at hmem
    rcases hmem with
      ((((((((hm | hm) | hm) | hm) | hm) | hm) | hm) | hm) | hm) | hm
    · exact below_notin_foreign _ hm
    · exact below_notin_top _ hm
    · have hlt := below_mem_cost _ hm
      rw [premiumToCostV1_no_buyers sd _ h] at hlt
      by_cases hc : sd.close = 0
      · rw [if_pos hc] at hlt
        exact Bool.false_ne_true hlt
      · rw [if_neg hc] at hlt
        norm_num [JSNum.ltv] at hlt
    · exact below_notin_volconf _ _ hm
    · exact below_notin_spike _ hm
    · exact below_notin_vdu _ hm
    · exact below_notin_bai _ hm
    · exact below_notin_streak _ hm
    · exact below_notin_conc _ hm
    · exact below_notin_pa _ hm

/-- C10 (witness): with an empty broker summary and close 100 the fallback
holds and the factor is absent. -/
theorem below_cost_witness :
    (∀ b ∈ (generateBasicIndicators price100Row).brokerSummary,
      ¬ 0 < b.buyVolume) ∧
    avgBrokerCostV1 price100Row
      (generateBasicIndicators price100Row).brokerSummary =
      price100Row.close ∧
    FactorV1.belowBrokerCost ∉ (calculateBandarScoreV1 price100Row
      (generateBasicIndicators price100Row)).factors :=
  ⟨by simp [generateBasicIndicators],
   (below_cost_amended price100Row (generateBasicIndicators price100Row)
     (by simp [generateBasicIndicators])).1,
   (below_cost_amended price100Row (generateBasicIndicators price100Row)
     (by simp [generateBasicIndicators])).2.2⟩

end Frontier
